import Mathlib

/-!
Verification development for the tentacle p2p Service event loop
(src/tentacle/src/service.rs).  The Service struct and its methods are
shallowly embedded as pure Lean functions over an explicit state record;
asynchronous channel behaviour (capacity of the underlying mpsc channels,
completion of spawned join handles, transport results) is supplied by an
oracle argument.  Components of the repository whose sources are not
available (Buffer, the priority channel, State, SessionContext, the
multiaddr utilities) are modelled from the specification; each such
definition carries a doc comment saying so.
-/

namespace Tentacle

/-- SessionId, a 32-bit identifier per the spec data model. -/
abbrev SessionId := Nat

/-- ProtocolId, an opaque integer chosen by the embedder. -/
abbrev ProtocolId := Nat

/-- PeerId, modelled as an opaque natural number. -/
abbrev PeerId := Nat

/-- Opaque transport error payload. -/
abbrev TransportErr := Nat

/-- Byte strings carried in protocol messages. -/
abbrev Bytes := List Nat

/-- Wrap-around bound of SessionId arithmetic: 2 to the 32. -/
def idW : Nat := 4294967296

/-- Bound of usize arithmetic: 2 to the 64, used by checked addition. -/
def usizeW : Nat := 18446744073709551616

/-- Checked usize addition as used by reached_max_connection_limit. -/
def checked_add (a b : Nat) : Option Nat :=
  if a + b < usizeW then some (a + b) else none

/-- Modelled from the spec: the remote public key produced by the
handshake collaborator.  The raw field stands for the key material and
pid for the peer id derived from it. -/
structure PublicKey where
  raw : Nat
  pid : PeerId
deriving DecidableEq, Repr

/-- Modelled from the spec: one component of a multiaddress; only the
peer-id component is distinguished, all other component kinds are
collapsed into an opaque tag. -/
inductive MProtocol where
  | p2p (pid : PeerId)
  | other (tag : Nat)
deriving DecidableEq, Repr

/-- Multiaddress: a path of components. -/
abbrev Multiaddr := List MProtocol

/-- Modelled from the spec: extract_peer_id from src/tentacle (utils),
returning the peer id of the first peer-id component of the address. -/
def extract_peer_id (addr : Multiaddr) : Option PeerId :=
  addr.findSome? fun c =>
    match c with
    | .p2p pid => some pid
    | .other _ => none

/-- Direction of a connection. -/
inductive SessionType where
  | inbound
  | outbound
deriving DecidableEq, Repr

/-- Whether the direction is outbound. -/
def SessionType.isOutbound : SessionType → Bool
  | .outbound => true
  | .inbound => false

/-- Priority of a queued event or task. -/
inductive Priority where
  | high
  | normal
deriving DecidableEq, Repr

/-- Result of Buffer.try_send, per section 4.1 of the spec. -/
inductive SendResult where
  | ok
  | pending
  | disconnect
deriving DecidableEq, Repr

/-- Modelled from the spec: the Buffer backpressure primitive of
section 4.1.  The holding field is the internal holding vector (len
reports its length); sent records the items that have been moved into
the underlying bounded channel, kept for observability. -/
structure Buffer (α : Type) where
  holding : List α
  sent : List α
deriving DecidableEq, Repr

/-- A fresh empty buffer. -/
def Buffer.empty {α : Type} : Buffer α := ⟨[], []⟩

/-- Buffer.len: length of the holding vector. -/
def Buffer.len {α : Type} (b : Buffer α) : Nat := b.holding.length

/-- Buffer.push: append to the holding vector, never blocks. -/
def Buffer.push {α : Type} (b : Buffer α) (x : α) : Buffer α :=
  { b with holding := b.holding ++ [x] }

/-- Buffer.clear: drop the holding vector. -/
def Buffer.clear {α : Type} (b : Buffer α) : Buffer α :=
  { b with holding := [] }

/-- Instantaneous condition of the channel behind a buffer, supplied by
the oracle: whether the receiver half is still alive, and how many
items the channel can accept right now. -/
structure ChannelCond where
  alive : Bool
  capacity : Nat

/-- Modelled from the spec: Buffer.try_send.  An empty holding vector
reports Ok without touching the channel; a dead receiver reports
Disconnect; otherwise up to capacity items move into the channel and
the result is Ok when everything moved, Pending otherwise. -/
def Buffer.trySend {α : Type} (c : ChannelCond) (b : Buffer α) :
    SendResult × Buffer α :=
  if b.holding.isEmpty then (.ok, b)
  else if !c.alive then (.disconnect, b)
  else
    let k := min c.capacity b.holding.length
    let b2 : Buffer α :=
      { holding := b.holding.drop k, sent := b.sent ++ b.holding.take k }
    (if k = b.holding.length then .ok else .pending, b2)

/-- Modelled from the spec: the SessionContext descriptor of section 3.
The closed flag and pending byte counter are shared atomics in the
source; here they are recorded at creation and not mutated, since
cross-task mutation is outside this embedding. -/
structure SessionContext where
  id : SessionId
  address : Multiaddr
  ty : SessionType
  remotePubkey : Option PublicKey
  closed : Bool
  pendingDataSize : Nat
deriving DecidableEq, Repr

/-- Kind of a protocol handle error, from error.rs via the spec error
taxonomy. -/
inductive ProtocolHandleErrorKind where
  | block (sid : Option SessionId)
  | abnormallyClosed (sid : Option SessionId)
deriving DecidableEq, Repr

/-- Dial-path error kinds surfaced to the user handle. -/
inductive DialerErrorKind where
  | repeatedConnection (id : SessionId)
  | peerIdNotMatch
  | handshakeError (e : TransportErr)
  | transportError (e : TransportErr)
deriving DecidableEq, Repr

/-- Inbound-side error kinds surfaced to the user handle. -/
inductive ListenErrorKind where
  | repeatedConnection (id : SessionId)
  | transportError (e : TransportErr)
deriving DecidableEq, Repr

/-- SessionEvent: events flowing from sessions, handshakes and
listeners into the Service, as matched by handle_session_event. -/
inductive SessionEvent where
  | sessionClose (id : SessionId)
  | handshakeSuccess (handle : Nat) (publicKey : Option PublicKey)
      (address : Multiaddr) (ty : SessionType) (listenAddress : Option Multiaddr)
  | handshakeError (ty : SessionType) (error : TransportErr) (address : Multiaddr)
  | protocolMessage (id : SessionId) (protoId : ProtocolId) (data : Bytes)
  | protocolOpen (id : SessionId) (protoId : ProtocolId) (version : Nat)
  | protocolClose (id : SessionId) (protoId : ProtocolId)
  | protocolSelectError (id : SessionId) (protoName : Nat)
  | protocolError (id : SessionId) (protoId : ProtocolId) (error : Nat)
  | dialError (address : Multiaddr) (error : TransportErr)
  | listenError (address : Multiaddr) (error : TransportErr)
  | sessionTimeout (id : SessionId)
  | muxerError (id : SessionId) (error : Nat)
  | listenStart (listenAddress : Multiaddr) (incoming : Nat)
  | protocolHandleError (error : ProtocolHandleErrorKind) (protoId : ProtocolId)
deriving DecidableEq, Repr

/-- ServiceError: errors surfaced to ServiceHandle.handle_error. -/
inductive ServiceError where
  | dialerError (address : Multiaddr) (error : DialerErrorKind)
  | listenError (address : Multiaddr) (error : ListenErrorKind)
  | protocolSelectError (protoName : Nat) (sessionContext : SessionContext)
  | protocolError (id : SessionId) (protoId : ProtocolId) (error : Nat)
  | sessionTimeout (sessionContext : SessionContext)
  | muxerError (sessionContext : SessionContext) (error : Nat)
  | sessionBlocked (sessionContext : SessionContext)
  | protocolHandleError (protoId : ProtocolId) (error : ProtocolHandleErrorKind)
deriving DecidableEq, Repr

/-- ServiceEvent: lifecycle events surfaced to
ServiceHandle.handle_event. -/
inductive UserServiceEvent where
  | sessionOpen (sessionContext : SessionContext)
  | sessionClose (sessionContext : SessionContext)
  | listenClose (address : Multiaddr)
  | listenStarted (address : Multiaddr)
deriving DecidableEq, Repr

/-- ProtocolEvent: protocol events surfaced to the deprecated
ServiceHandle.handle_proto path. -/
inductive ProtocolUserEvent where
  | connected (sessionContext : SessionContext) (protoId : ProtocolId) (version : Nat)
  | received (sessionContext : SessionContext) (protoId : ProtocolId) (data : Bytes)
  | disconnected (protoId : ProtocolId) (sessionContext : SessionContext)
deriving DecidableEq, Repr

/-- Session target selector of a user task. -/
inductive TargetSession where
  | single (id : SessionId)
  | multi (ids : List SessionId)
  | all
deriving DecidableEq, Repr

/-- Protocol target selector. -/
inductive TargetProtocol where
  | single (id : ProtocolId)
  | multi (ids : List ProtocolId)
  | all
deriving DecidableEq, Repr

/-- ServiceTask: tasks sent from user code into the Service. -/
inductive ServiceTask where
  | protocolMessage (target : TargetSession) (protoId : ProtocolId) (data : Bytes)
  | dial (address : Multiaddr) (target : TargetProtocol)
  | listen (address : Multiaddr)
  | disconnect (sessionId : SessionId)
  | futureTask (task : Nat)
  | setProtocolNotify (protoId : ProtocolId) (interval : Nat) (token : Nat)
  | removeProtocolNotify (protoId : ProtocolId) (token : Nat)
  | setProtocolSessionNotify (sessionId : SessionId) (protoId : ProtocolId)
      (interval : Nat) (token : Nat)
  | removeProtocolSessionNotify (sessionId : SessionId) (protoId : ProtocolId) (token : Nat)
  | protocolOpen (sessionId : SessionId) (target : TargetProtocol)
  | protocolClose (sessionId : SessionId) (protoId : ProtocolId)
  | shutdown (quick : Bool)
deriving DecidableEq, Repr

/-- Events pushed by the Service into a service-level protocol handler
buffer (the subset produced in service.rs). -/
inductive ServiceProtocolEvent where
  | init
  | update (listenAddrs : List Multiaddr)
  | setNotify (interval : Nat) (token : Nat)
  | removeNotify (token : Nat)
deriving DecidableEq, Repr

/-- Events pushed by the Service into a session-level protocol handler
buffer (the subset produced in service.rs). -/
inductive SessionProtocolEvent where
  | update (listenAddrs : List Multiaddr)
  | setNotify (interval : Nat) (token : Nat)
  | removeNotify (token : Nat)
deriving DecidableEq, Repr

/-- Observable effects of one processing step: calls into the user
handle, shutdown of a rejected socket, spawns, cancel signals, and a
marker recording each invocation of handle_service_task. -/
inductive Effect where
  | handleError (e : ServiceError)
  | handleEvent (e : UserServiceEvent)
  | handleProto (e : ProtocolUserEvent)
  | taskHandled (t : ServiceTask) (p : Priority)
  | shutdownHandle (h : Nat)
  | sessionSpawned (id : SessionId)
  | openProtoStream (name : Nat)
  | spawnListener (addr : Multiaddr)
  | cancelSent (hid : Nat)
deriving DecidableEq, Repr

/-- Divergence or panic points of the embedded code: the unreachable
branch of session_poll, the expect on the listen address in
session_open, and non-termination of generate_next_session when every
id is occupied. -/
inductive Fault where
  | unreachableSessionPoll
  | listenAddrExpect
  | sessionIdExhausted
deriving DecidableEq, Repr

/-- Modelled from the spec: the service State record of section 3,
with forever, the pending counter of in-flight dial and listen
attempts, and the pre-shutdown flag. -/
structure State where
  forever : Bool
  pending : Nat
  shutdown : Bool
deriving DecidableEq, Repr

/-- Modelled from the spec: State.increase, one more in-flight attempt. -/
def State.increase (s : State) : State := { s with pending := s.pending + 1 }

/-- Modelled from the spec: State.decrease, one attempt resolved. -/
def State.decrease (s : State) : State := { s with pending := s.pending - 1 }

/-- Modelled from the spec: State.pre_shutdown sets the shutdown flag. -/
def State.preShutdown (s : State) : State := { s with shutdown := true }

/-- Modelled from the spec: State.is_shutdown holds when the service is
not in forever mode and has no pending attempts, or after a Shutdown
task set the pre-shutdown flag. -/
def State.isShutdown (s : State) : Bool :=
  (!s.forever && s.pending == 0) || s.shutdown

/-- Modelled from the spec: State.into_inner exposes the pending
counter. -/
def State.intoInner (s : State) : Option Nat := some s.pending

/-- Session configuration fields consulted by the event loop. -/
structure SessionConfig where
  sendEventSize : Nat
  recvEventSize : Nat
deriving DecidableEq, Repr

/-- Kind of a registered protocol handle. -/
inductive HandleKind where
  | neither
  | callback
  | both
deriving DecidableEq, Repr

/-- Whether the kind is Callback or Both, the instantiable kinds. -/
def HandleKind.isCallbackOrBoth : HandleKind → Bool
  | .callback => true
  | .both => true
  | .neither => false

/-- ProtocolMeta: per-protocol configuration, restricted to the fields
the event loop reads. -/
structure ProtocolMeta where
  name : Nat
  serviceHandle : HandleKind
  sessionHandle : HandleKind
  beforeSend : Option (Bytes → Bytes)

/-- ServiceConfig, restricted to the fields the event loop reads. -/
structure ServiceConfig where
  maxConnectionNumber : Nat
  sessionConfig : SessionConfig
  event : List ProtocolId
deriving DecidableEq, Repr

/-- SessionController: the per-session outbound buffer of prioritized
session events plus the shared session context. -/
structure SessionController where
  buffer : Buffer (Priority × SessionEvent)
  inner : SessionContext
deriving DecidableEq, Repr

/-- SessionController.push as used by the external close and open
paths. -/
def SessionController.push (c : SessionController) (p : Priority) (ev : SessionEvent) :
    SessionController :=
  { c with buffer := c.buffer.push (p, ev) }

/-- SessionController.push_message: queue a protocol message for this
session. -/
def SessionController.pushMessage (c : SessionController) (protoId : ProtocolId)
    (p : Priority) (data : Bytes) : SessionController :=
  c.push p (.protocolMessage c.inner.id protoId data)

/-- State of the session-event mpsc receiver.  The Service keeps its
own clone of the matching sender as a struct field, so the
all-senders-dropped disconnection case cannot occur; the receiver
yields Ready None exactly when it has been closed and its queue is
drained.  The terminated flag mirrors FusedStream.is_terminated, which
becomes true only after Ready None has been returned once. -/
structure EventReceiver where
  queue : List SessionEvent
  closed : Bool
  terminated : Bool
deriving DecidableEq, Repr

/-- State of the prioritized user-task receiver: a high and a normal
queue, the closed flag, whether any user-side sender is still alive,
and the terminated flag. -/
structure TaskReceiver where
  high : List ServiceTask
  normal : List ServiceTask
  closed : Bool
  sendersAlive : Bool
  terminated : Bool
deriving DecidableEq, Repr

/-- One stored handler task: whether the one-shot cancel sender is
still present, and an identifier used to ask the oracle whether the
join handle has completed. -/
structure WaitEntry where
  hasSender : Bool
  hid : Nat
deriving DecidableEq, Repr

/-- An entry of the future task queue (opaque payloads tagged by
origin). -/
inductive FutureTaskRepr where
  | dialTask (addr : Multiaddr)
  | listenTask (addr : Multiaddr)
  | userTask (n : Nat)
deriving DecidableEq, Repr

/-- The Service state: the owned maps and counters of the event loop.
Maps are association lists with the insertion discipline of the
source (fresh keys only), listens is the set of listen addresses,
igdRegistrations models the port-mapping helper registrations, and
serviceContextListens is the listen list published into the
ServiceContext. -/
structure ServiceState where
  protocolConfigs : List (ProtocolId × ProtocolMeta)
  sessions : List (SessionId × SessionController)
  listens : List Multiaddr
  igdRegistrations : List Multiaddr
  dialProtocols : List (Multiaddr × TargetProtocol)
  config : ServiceConfig
  state : State
  nextSession : SessionId
  beforeSends : List (ProtocolId × (Bytes → Bytes))
  futureTaskManagerPresent : Bool
  futureTaskSender : Buffer FutureTaskRepr
  serviceProtoHandles : List (ProtocolId × Buffer ServiceProtocolEvent)
  sessionProtoHandles : List ((SessionId × ProtocolId) × Buffer SessionProtocolEvent)
  sessionEventReceiver : EventReceiver
  serviceContextListens : List Multiaddr
  serviceTaskReceiver : TaskReceiver
  shutdown : Bool
  waitHandle : List WaitEntry

/-- The oracle: per-channel conditions, transport results and join
handle completion, abstracting the asynchronous environment of one
poll round. -/
structure Oracle where
  sessionChan : SessionId → ChannelCond
  serviceProtoChan : ProtocolId → ChannelCond
  sessionProtoChan : SessionId → ProtocolId → ChannelCond
  futureChan : ChannelCond
  dialResult : Multiaddr → Option TransportErr
  listenResult : Multiaddr → Option TransportErr
  handleDone : Nat → Bool

/-- Association list lookup on the first matching key. -/
def mapLookup {α β : Type} [DecidableEq α] (k : α) : List (α × β) → Option β
  | [] => none
  | (a, b) :: t => if a = k then some b else mapLookup k t

/-- Association list membership. -/
def mapContains {α β : Type} [DecidableEq α] (k : α) (l : List (α × β)) : Bool :=
  (mapLookup k l).isSome

/-- Association list removal of every entry with the key. -/
def mapRemove {α β : Type} [DecidableEq α] (k : α) (l : List (α × β)) : List (α × β) :=
  l.filter fun e => decide (e.1 ≠ k)

/-- In-place update of the value stored at a key, mirroring get_mut. -/
def mapUpdate {α β : Type} [DecidableEq α] (k : α) (f : β → β) (l : List (α × β)) :
    List (α × β) :=
  l.map fun e => if e.1 = k then (e.1, f e.2) else e

/-- Trace of observable effects of one step. -/
abbrev Trace := List Effect

/-- Origin of a close or open request: External requests come from user
tasks and are forwarded to the session, Internal ones come from the
session and mutate the service maps. -/
inductive Source where
  | external
  | internal
deriving DecidableEq, Repr

/-- Sum of the holding lengths of the service-level protocol handler
buffers (read_service_buf in the debug log of poll_next). -/
def read_service_buf (s : ServiceState) : Nat :=
  (s.serviceProtoHandles.map fun e => e.2.len).sum

/-- Sum of the holding lengths of the session-level protocol handler
buffers (read_session_buf in the debug log of poll_next). -/
def read_session_buf (s : ServiceState) : Nat :=
  (s.sessionProtoHandles.map fun e => e.2.len).sum

/-- Sum of the per-session outbound buffer lengths (write_buf in the
debug log of poll_next). -/
def write_buf (s : ServiceState) : Nat :=
  (s.sessions.map fun e => e.2.buffer.len).sum

/-- distribute_to_session: flush every per-session outbound buffer,
reporting SessionBlocked for each buffer whose channel is full; a no-op
once the global shutdown flag is set. -/
def distribute_to_session (s : ServiceState) (o : Oracle) : ServiceState × Trace :=
  if s.shutdown then (s, [])
  else
    ({ s with sessions := s.sessions.map fun e =>
        (e.1, { e.2 with buffer := (Buffer.trySend (o.sessionChan e.1) e.2.buffer).2 }) },
     (s.sessions.map fun e =>
        if (Buffer.trySend (o.sessionChan e.1) e.2.buffer).1 = SendResult.pending then
          [Effect.handleError (.sessionBlocked e.2.inner)]
        else []).flatten)

/-- session_close: the External path pushes a High priority
SessionClose into the target session buffer and flushes; the Internal
path purges the session-level handler records of the session, removes
the SessionController and emits the SessionClose user event. -/
def session_close (s : ServiceState) (o : Oracle) (id : SessionId) (source : Source) :
    ServiceState × Trace :=
  match source with
  | .external =>
    if mapContains id s.sessions then
      distribute_to_session
        { s with sessions :=
            mapUpdate id (fun c => c.push .high (.sessionClose id)) s.sessions } o
    else (s, [])
  | .internal =>
    let s1 := { s with sessionProtoHandles :=
      s.sessionProtoHandles.filter fun e => decide (e.1.1 ≠ id) }
    match mapLookup id s1.sessions with
    | some c =>
      ({ s1 with sessions := mapRemove id s1.sessions },
       [.handleEvent (.sessionClose c.inner)])
    | none => (s1, [])

/-- Fold a state-and-trace step over a list, concatenating traces. -/
def foldSteps {γ : Type} (f : ServiceState → γ → ServiceState × Trace)
    (init : ServiceState × Trace) (xs : List γ) : ServiceState × Trace :=
  xs.foldl (fun acc x => let r := f acc.1 x; (r.1, acc.2 ++ r.2)) init

/-- The Shutdown branch of handle_service_task: enter pre-shutdown,
emit ListenClose for every recorded listen, clear the port-mapping
registrations and the future task queue, then close every session
internally (quick, after closing both receivers and clearing the
handler buffer maps) or externally (graceful). -/
def handle_shutdown (s : ServiceState) (o : Oracle) (quick : Bool) : ServiceState × Trace :=
  let trL : Trace := s.listens.map fun a => .handleEvent (.listenClose a)
  let s1 := { s with state := s.state.preShutdown, listens := [],
                     igdRegistrations := [],
                     futureTaskSender := s.futureTaskSender.clear }
  let ids := s1.sessions.map fun e => e.1
  if quick then
    let s2 := { s1 with
      serviceTaskReceiver := { s1.serviceTaskReceiver with closed := true },
      sessionEventReceiver := { s1.sessionEventReceiver with closed := true },
      serviceProtoHandles := [], sessionProtoHandles := [] }
    foldSteps (fun st i => session_close st o i .internal) (s2, trL) ids
  else
    foldSteps (fun st i => session_close st o i .external) (s1, trL) ids

/-- Classification trace for one service-level handler buffer. -/
def classify_service (o : Oracle) (e : ProtocolId × Buffer ServiceProtocolEvent) : Trace :=
  match (Buffer.trySend (o.serviceProtoChan e.1) e.2).1 with
  | .pending => [.handleError (.protocolHandleError e.1 (.block none))]
  | .ok => []
  | .disconnect => [.handleError (.protocolHandleError e.1 (.abnormallyClosed none))]

/-- Classification trace for one session-level handler buffer. -/
def classify_session (o : Oracle)
    (e : (SessionId × ProtocolId) × Buffer SessionProtocolEvent) : Trace :=
  match (Buffer.trySend (o.sessionProtoChan e.1.1 e.1.2) e.2).1 with
  | .pending => [.handleError (.protocolHandleError e.1.2 (.block (some e.1.1)))]
  | .ok => []
  | .disconnect => [.handleError (.protocolHandleError e.1.2 (.abnormallyClosed (some e.1.1)))]

/-- distribute_to_user_level: flush every handler buffer, classify each
result, and when any handler was classified Disconnect process a
Shutdown false task at High priority; a no-op once the global shutdown
flag is set. -/
def distribute_to_user_level (s : ServiceState) (o : Oracle) : ServiceState × Trace :=
  if s.shutdown then (s, [])
  else
    let err :=
      (s.serviceProtoHandles.any fun e =>
        decide ((Buffer.trySend (o.serviceProtoChan e.1) e.2).1 = SendResult.disconnect)) ||
      (s.sessionProtoHandles.any fun e =>
        decide ((Buffer.trySend (o.sessionProtoChan e.1.1 e.1.2) e.2).1 = SendResult.disconnect))
    let tr := (s.serviceProtoHandles.map (classify_service o)).flatten ++
              (s.sessionProtoHandles.map (classify_session o)).flatten
    let s1 := { s with
      serviceProtoHandles := s.serviceProtoHandles.map fun e =>
        (e.1, (Buffer.trySend (o.serviceProtoChan e.1) e.2).2),
      sessionProtoHandles := s.sessionProtoHandles.map fun e =>
        (e.1, (Buffer.trySend (o.sessionProtoChan e.1.1 e.1.2) e.2).2) }
    if err then
      let r := handle_shutdown s1 o false
      (r.1, tr ++ [.taskHandled (.shutdown false) .high] ++ r.2)
    else (s1, tr)

/-- handle_message: apply the registered before_send transform, route
the payload to the targeted sessions, then flush. -/
def handle_message (s : ServiceState) (o : Oracle) (target : TargetSession)
    (protoId : ProtocolId) (priority : Priority) (data : Bytes) : ServiceState × Trace :=
  let data2 := match mapLookup protoId s.beforeSends with
    | some f => f data
    | none => data
  let s1 := match target with
    | .single id =>
      { s with sessions :=
          mapUpdate id (fun c => c.pushMessage protoId priority data2) s.sessions }
    | .multi ids =>
      ids.foldl (fun st id =>
        { st with sessions :=
            mapUpdate id (fun c => c.pushMessage protoId priority data2) st.sessions }) s
    | .all =>
      { s with sessions := s.sessions.map fun e =>
          (e.1, e.2.pushMessage protoId priority data2) }
  distribute_to_session s1 o

/-- protocol_open: External pushes a High ProtocolOpen to the session;
Internal surfaces a Connected protocol event on the deprecated event
path when the protocol id is in config.event. -/
def protocol_open (s : ServiceState) (o : Oracle) (id : SessionId) (protoId : ProtocolId)
    (version : Nat) (source : Source) : ServiceState × Trace :=
  match source with
  | .external =>
    if mapContains id s.sessions then
      distribute_to_session
        { s with sessions :=
            mapUpdate id (fun c => c.push .high (.protocolOpen id protoId version)) s.sessions } o
    else (s, [])
  | .internal =>
    if s.config.event.contains protoId then
      match mapLookup id s.sessions with
      | some c => (s, [.handleProto (.connected c.inner protoId version)])
      | none => (s, [])
    else (s, [])

/-- protocol_message: surface a Received protocol event on the
deprecated event path when the protocol id is in config.event. -/
def protocol_message (s : ServiceState) (sessionId : SessionId) (protoId : ProtocolId)
    (data : Bytes) : ServiceState × Trace :=
  if s.config.event.contains protoId then
    match mapLookup sessionId s.sessions with
    | some c => (s, [.handleProto (.received c.inner protoId data)])
    | none => (s, [])
  else (s, [])

/-- protocol_close: External pushes a High ProtocolClose to the
session; Internal surfaces Disconnected on the event path and removes
the session-level handler record of the pair. -/
def protocol_close (s : ServiceState) (o : Oracle) (sessionId : SessionId)
    (protoId : ProtocolId) (source : Source) : ServiceState × Trace :=
  match source with
  | .external =>
    if mapContains sessionId s.sessions then
      let f := fun (c : SessionController) => c.push .high (.protocolClose sessionId protoId)
      distribute_to_session
        { s with sessions := mapUpdate sessionId f s.sessions } o
    else (s, [])
  | .internal =>
    let tr : Trace :=
      if s.config.event.contains protoId then
        match mapLookup sessionId s.sessions with
        | some c => [.handleProto (.disconnected protoId c.inner)]
        | none => []
      else []
    ({ s with sessionProtoHandles := mapRemove (sessionId, protoId) s.sessionProtoHandles }, tr)

/-- Probe loop of generate_next_session: repeatedly apply the wrapping
increment until an unoccupied id is found, with explicit fuel standing
for the number of remaining probes. -/
def genAux (occupied : Nat → Bool) : Nat → Nat → Option Nat
  | _, 0 => none
  | cur, fuel + 1 =>
    let nxt := (cur + 1) % idW
    if occupied nxt then genAux occupied nxt fuel else some nxt

/-- generate_next_session: advance next_session by wrapping increments
until it is not a key of the sessions map; none models divergence of
the source loop when every id is occupied. -/
def generate_next_session (s : ServiceState) : Option ServiceState :=
  (genAux (fun n => mapContains n s.sessions) s.nextSession idW).map
    fun nid => { s with nextSession := nid }

/-- reached_max_connection_limit: whether active sessions plus pending
attempts exceed max_connection_number, with the checked addition of the
source. -/
def reached_max_connection_limit (s : ServiceState) : Bool :=
  ((checked_add s.sessions.length (s.state.intoInner.getD 0)).map fun count =>
    decide (s.config.maxConnectionNumber < count)).getD false

/-- session_handles_open: for every protocol meta with an instantiable
session-level handler, register a fresh per-session-per-protocol
handler buffer (the spawned SessionProtocolStream drivers are external
tasks and are handed to the Session). -/
def session_handles_open (s : ServiceState) (id : SessionId) : ServiceState :=
  s.protocolConfigs.foldl
    (fun st e =>
      if e.2.sessionHandle.isCallbackOrBoth && mapContains id st.sessions then
        { st with sessionProtoHandles := st.sessionProtoHandles ++ [((id, e.1), Buffer.empty)] }
      else st) s

/-- First existing session whose remote pubkey equals the given key. -/
def findDup (key : PublicKey) (l : List (SessionId × SessionController)) :
    Option (SessionId × SessionController) :=
  l.find? fun e => decide (e.2.inner.remotePubkey = some key)

/-- Effects of the pre-open of protocol substreams on an outbound
session, per TargetProtocol. -/
def open_streams_trace (s : ServiceState) (ty : SessionType) (target : TargetProtocol) :
    Trace :=
  if ty.isOutbound then
    match target with
    | .all => s.protocolConfigs.map fun e => .openProtoStream e.2.name
    | .single protoId =>
      match mapLookup protoId s.protocolConfigs with
      | some m => [.openProtoStream m.name]
      | none => []
    | .multi protoIds =>
      (protoIds.map fun protoId =>
        match mapLookup protoId s.protocolConfigs with
        | some m => [Effect.openProtoStream m.name]
        | none => []).flatten
  else []

/-- Tail of session_open once the duplicate and peer-id checks have
passed: allocate the next session id, build the SessionContext and
SessionController, insert into the sessions map before opening the
session-level handler records, pre-open outbound protocol substreams,
spawn the Session and emit the SessionOpen user event. -/
def open_rest (s : ServiceState) (pk : Option PublicKey) (addr : Multiaddr)
    (ty : SessionType) (target : TargetProtocol) : Except Fault (ServiceState × Trace) :=
  match genAux (fun n => mapContains n s.sessions) s.nextSession idW with
  | none => .error .sessionIdExhausted
  | some nid =>
    let ctx : SessionContext :=
      { id := nid, address := addr, ty := ty, remotePubkey := pk,
        closed := false, pendingDataSize := 0 }
    let ctl : SessionController := { buffer := Buffer.empty, inner := ctx }
    let s1 := { s with nextSession := nid, sessions := (nid, ctl) :: s.sessions }
    let s2 := session_handles_open s1 nid
    .ok (s2, open_streams_trace s ty target ++
             [.sessionSpawned nid, .handleEvent (.sessionOpen ctx)])

/-- session_open: resolve the dial target, reject duplicate-pubkey
connections with a direction-appropriate RepeatedConnection error,
validate the peer id carried by the address (appending one derived
from the pubkey when absent), then open the session. -/
def session_open (s : ServiceState) (handle : Nat) (remotePubkey : Option PublicKey)
    (address : Multiaddr) (ty : SessionType) (listenAddr : Option Multiaddr) :
    Except Fault (ServiceState × Trace) :=
  let target := (mapLookup address s.dialProtocols).getD .all
  let s0 := { s with dialProtocols := mapRemove address s.dialProtocols }
  match remotePubkey with
  | some key =>
    match findDup key s0.sessions with
    | some fc =>
      if ty.isOutbound then
        .ok (s0, [.shutdownHandle handle,
                  .handleError (.dialerError address (.repeatedConnection fc.2.inner.id))])
      else
        match listenAddr with
        | some a =>
          .ok (s0, [.shutdownHandle handle,
                    .handleError (.listenError a (.repeatedConnection fc.2.inner.id))])
        | none => .error .listenAddrExpect
    | none =>
      match extract_peer_id address with
      | some pid =>
        if key.pid ≠ pid then
          .ok (s0, [.handleError (.dialerError address .peerIdNotMatch)])
        else open_rest s0 (some key) address ty target
      | none => open_rest s0 (some key) (address ++ [.p2p key.pid]) ty target
  | none => open_rest s0 none address ty target

/-- try_update_listens: when the recorded listen set and the published
ServiceContext listen list differ in size, publish the new list, push
an Update event into every handler buffer and flush to user level. -/
def try_update_listens (s : ServiceState) (o : Oracle) : ServiceState × Trace :=
  if s.listens.length = s.serviceContextListens.length then (s, [])
  else
    let new := s.listens
    distribute_to_user_level
      { s with serviceContextListens := new,
               serviceProtoHandles := s.serviceProtoHandles.map fun e =>
                 (e.1, e.2.push (.update new)),
               sessionProtoHandles := s.sessionProtoHandles.map fun e =>
                 (e.1, e.2.push (.update new)) } o

/-- Insert into a list modelling a set, appending when absent. -/
def setInsert (a : Multiaddr) (l : List Multiaddr) : List Multiaddr :=
  if l.contains a then l else l ++ [a]

/-- handle_session_event: dispatch one event drawn from the
session-event receiver, as in the source match. -/
def handle_session_event (s : ServiceState) (o : Oracle) (ev : SessionEvent) :
    Except Fault (ServiceState × Trace) :=
  match ev with
  | .sessionClose id => .ok (session_close s o id .internal)
  | .handshakeSuccess handle publicKey address ty listenAddress =>
    let s1 := if ty.isOutbound then { s with state := s.state.decrease } else s
    if reached_max_connection_limit s1 then .ok (s1, [])
    else session_open s1 handle publicKey address ty listenAddress
  | .handshakeError ty error address =>
    if ty.isOutbound then
      .ok ({ s with state := s.state.decrease,
                    dialProtocols := mapRemove address s.dialProtocols },
           [.handleError (.dialerError address (.handshakeError error))])
    else .ok (s, [])
  | .protocolMessage id protoId data => .ok (protocol_message s id protoId data)
  | .protocolOpen id protoId version => .ok (protocol_open s o id protoId version .internal)
  | .protocolClose id protoId => .ok (protocol_close s o id protoId .internal)
  | .protocolSelectError id protoName =>
    match mapLookup id s.sessions with
    | some c => .ok (s, [.handleError (.protocolSelectError protoName c.inner)])
    | none => .ok (s, [])
  | .protocolError id protoId error =>
    .ok (s, [.handleError (.protocolError id protoId error)])
  | .dialError address error =>
    .ok ({ s with state := s.state.decrease,
                  dialProtocols := mapRemove address s.dialProtocols },
         [.handleError (.dialerError address (.transportError error))])
  | .listenError address error =>
    if s.listens.contains address then
      .ok ({ s with listens := s.listens.filter fun a => decide (a ≠ address),
                    igdRegistrations := s.igdRegistrations.filter fun a => decide (a ≠ address) },
           [.handleError (.listenError address (.transportError error)),
            .handleEvent (.listenClose address)])
    else
      .ok ({ s with state := s.state.decrease },
           [.handleError (.listenError address (.transportError error))])
  | .sessionTimeout id =>
    match mapLookup id s.sessions with
    | some c => .ok (s, [.handleError (.sessionTimeout c.inner)])
    | none => .ok (s, [])
  | .muxerError id error =>
    match mapLookup id s.sessions with
    | some c => .ok (s, [.handleError (.muxerError c.inner error)])
    | none => .ok (s, [])
  | .listenStart listenAddress _incoming =>
    let s1 := { s with listens := setInsert listenAddress s.listens,
                       state := s.state.decrease }
    let r := try_update_listens s1 o
    let s3 := { r.1 with igdRegistrations := setInsert listenAddress r.1.igdRegistrations }
    .ok (s3, [.handleEvent (.listenStarted listenAddress)] ++ r.2 ++
             [.spawnListener listenAddress])
  | .protocolHandleError error protoId =>
    let r := handle_shutdown s o false
    .ok (r.1, [.handleError (.protocolHandleError protoId error),
               .taskHandled (.shutdown false) .high] ++ r.2)

/-- send_pending_task: flush the future task buffer into its channel,
ignoring the result. -/
def send_pending_task (s : ServiceState) (o : Oracle) : ServiceState :=
  { s with futureTaskSender := (Buffer.trySend o.futureChan s.futureTaskSender).2 }

/-- Dispatch of handle_service_task, before the trace marker is
prepended. -/
def handle_service_task_core (s : ServiceState) (o : Oracle) (task : ServiceTask)
    (priority : Priority) : ServiceState × Trace :=
  match task with
  | .protocolMessage target protoId data => handle_message s o target protoId priority data
  | .dial address target =>
    if mapContains address s.dialProtocols then (s, [])
    else
      let s1 := { s with dialProtocols := (address, target) :: s.dialProtocols }
      match o.dialResult address with
      | none =>
        ({ s1 with futureTaskSender := s1.futureTaskSender.push (.dialTask address),
                   state := s1.state.increase }, [])
      | some e => (s1, [.handleError (.dialerError address (.transportError e))])
  | .listen address =>
    if s.listens.contains address then (s, [])
    else
      match o.listenResult address with
      | none =>
        ({ s with futureTaskSender := s.futureTaskSender.push (.listenTask address),
                  state := s.state.increase }, [])
      | some e => (s, [.handleError (.listenError address (.transportError e))])
  | .disconnect sessionId => session_close s o sessionId .external
  | .futureTask n =>
    let s1 := { s with futureTaskSender := s.futureTaskSender.push (.userTask n) }
    (send_pending_task s1 o, [])
  | .setProtocolNotify protoId interval token =>
    if mapContains protoId s.serviceProtoHandles then
      let f := fun (b : Buffer ServiceProtocolEvent) => b.push (.setNotify interval token)
      distribute_to_user_level
        { s with serviceProtoHandles := mapUpdate protoId f s.serviceProtoHandles } o
    else (s, [])
  | .removeProtocolNotify protoId token =>
    if mapContains protoId s.serviceProtoHandles then
      let f := fun (b : Buffer ServiceProtocolEvent) => b.push (.removeNotify token)
      distribute_to_user_level
        { s with serviceProtoHandles := mapUpdate protoId f s.serviceProtoHandles } o
    else (s, [])
  | .setProtocolSessionNotify sessionId protoId interval token =>
    if mapContains (sessionId, protoId) s.sessionProtoHandles then
      let f := fun (b : Buffer SessionProtocolEvent) => b.push (.setNotify interval token)
      distribute_to_user_level
        { s with sessionProtoHandles :=
            mapUpdate (sessionId, protoId) f s.sessionProtoHandles } o
    else (s, [])
  | .removeProtocolSessionNotify sessionId protoId token =>
    if mapContains (sessionId, protoId) s.sessionProtoHandles then
      let f := fun (b : Buffer SessionProtocolEvent) => b.push (.removeNotify token)
      distribute_to_user_level
        { s with sessionProtoHandles :=
            mapUpdate (sessionId, protoId) f s.sessionProtoHandles } o
    else (s, [])
  | .protocolOpen sessionId target =>
    match target with
    | .all =>
      let ids := s.protocolConfigs.map fun e => e.1
      foldSteps (fun st id => protocol_open st o sessionId id 0 .external) (s, []) ids
    | .single id => protocol_open s o sessionId id 0 .external
    | .multi ids =>
      foldSteps (fun st id => protocol_open st o sessionId id 0 .external) (s, []) ids
  | .protocolClose sessionId protoId => protocol_close s o sessionId protoId .external
  | .shutdown quick => handle_shutdown s o quick

/-- handle_service_task: dispatch one user task; the trace records the
invocation with its priority. -/
def handle_service_task (s : ServiceState) (o : Oracle) (task : ServiceTask)
    (priority : Priority) : ServiceState × Trace :=
  let r := handle_service_task_core s o task priority
  (r.1, .taskHandled task priority :: r.2)

/-- init_proto_handles: on first poll, register a buffer and a stored
handler task for every protocol with an instantiable service-level
handler, and move the before_send hooks out of the metas. -/
def init_proto_handles (s : ServiceState) : ServiceState :=
  { s with
    serviceProtoHandles := s.serviceProtoHandles ++
      (s.protocolConfigs.filter fun e => e.2.serviceHandle.isCallbackOrBoth).map
        (fun e => (e.1, Buffer.empty)),
    waitHandle := s.waitHandle ++
      (s.protocolConfigs.filter fun e => e.2.serviceHandle.isCallbackOrBoth).map
        (fun e => { hasSender := true, hid := e.1 + 1 }),
    beforeSends := s.beforeSends ++
      s.protocolConfigs.filterMap (fun e => e.2.beforeSend.map fun f => (e.1, f)),
    protocolConfigs := s.protocolConfigs.map fun e =>
      (e.1, { e.2 with beforeSend := none }) }

/-- flush_buffer: flush the session buffers when any is non-empty, then
the handler buffers when any is non-empty. -/
def flush_buffer (s : ServiceState) (o : Oracle) : ServiceState × Trace :=
  let r1 :=
    if !(s.sessions.all fun e => e.2.buffer.holding.isEmpty) then
      distribute_to_session s o
    else (s, [])
  if !(r1.1.serviceProtoHandles.all fun e => e.2.holding.isEmpty) ||
     !(r1.1.sessionProtoHandles.all fun e => e.2.holding.isEmpty) then
    let d := distribute_to_user_level r1.1 o
    (d.1, r1.2 ++ d.2)
  else r1

/-- Result of one poll of a stream, a Poll of Option Unit. -/
inductive PollR where
  | readySome
  | readyNone
  | pending
deriving DecidableEq, Repr

/-- Whether the poll result is Pending. -/
def PollR.isPending : PollR → Bool
  | .pending => true
  | _ => false

/-- session_poll: inbound backpressure check on both handler buffer
sums, the is_terminated early return, then one poll of the
session-event receiver; Ready None from a receiver that was not
terminated is the unreachable branch of the source. -/
def session_poll (s : ServiceState) (o : Oracle) :
    Except Fault (PollR × ServiceState × Trace) :=
  if read_service_buf s > s.config.sessionConfig.recvEventSize ||
     read_session_buf s > s.config.sessionConfig.recvEventSize then
    .ok (.pending, s, [])
  else if s.sessionEventReceiver.terminated then .ok (.readyNone, s, [])
  else
    match s.sessionEventReceiver.queue with
    | e :: rest =>
      let s1 := { s with sessionEventReceiver := { s.sessionEventReceiver with queue := rest } }
      match handle_session_event s1 o e with
      | .ok (s2, tr) => .ok (.readySome, s2, tr)
      | .error f => .error f
    | [] =>
      if s.sessionEventReceiver.closed then .error .unreachableSessionPoll
      else .ok (.pending, s, [])

/-- One poll of the prioritized user-task receiver: High drains before
Normal. -/
def task_receiver_pop (r : TaskReceiver) : Option ((Priority × ServiceTask) × TaskReceiver) :=
  match r.high with
  | t :: rest => some ((.high, t), { r with high := rest })
  | [] =>
    match r.normal with
    | t :: rest => some ((.normal, t), { r with normal := rest })
    | [] => none

/-- user_task_poll: outbound backpressure check on the per-session
buffer sum, the is_terminated early return, then one poll of the
user-task receiver. -/
def user_task_poll (s : ServiceState) (o : Oracle) : PollR × ServiceState × Trace :=
  if write_buf s > s.config.sessionConfig.sendEventSize then (.pending, s, [])
  else if s.serviceTaskReceiver.terminated then (.readyNone, s, [])
  else
    match task_receiver_pop s.serviceTaskReceiver with
    | some ((p, t), r2) =>
      let r := handle_service_task { s with serviceTaskReceiver := r2 } o t p
      (.readySome, r.1, r.2)
    | none =>
      if s.serviceTaskReceiver.closed || !s.serviceTaskReceiver.sendersAlive then
        (.readyNone,
         { s with serviceTaskReceiver := { s.serviceTaskReceiver with terminated := true } }, [])
      else (.pending, s, [])

/-- wait_handle_poll: send the one-shot cancel to every stored handler
task still holding one, drop the tasks whose join handle completed,
and report Ready None exactly when no handle remains. -/
def wait_handle_poll (s : ServiceState) (o : Oracle) : PollR × ServiceState × Trace :=
  let kept := s.waitHandle.filterMap fun e =>
    if o.handleDone e.hid then none
    else some { hasSender := false, hid := e.hid }
  let tr : Trace := s.waitHandle.filterMap fun e =>
    if e.hasSender then some (Effect.cancelSent e.hid) else none
  ((if kept.isEmpty then .readyNone else .pending), { s with waitHandle := kept }, tr)

/-- The termination condition checked at the head and at the tail of
every poll round. -/
def termination_check (s : ServiceState) : Bool :=
  s.listens.isEmpty && s.state.isShutdown && s.sessions.isEmpty &&
    s.futureTaskSender.holding.isEmpty

/-- The middle of a poll round, between the head and tail termination
checks: one-time init, buffer flush, listen update, session poll, user
task poll, pending future task flush.  The boolean is is_pending. -/
def poll_middle (s : ServiceState) (o : Oracle) :
    Except Fault (Bool × ServiceState × Trace) :=
  let s0 :=
    if s.futureTaskManagerPresent then
      init_proto_handles
        { s with futureTaskManagerPresent := false,
                 waitHandle := s.waitHandle ++ [{ hasSender := true, hid := 0 }] }
    else s
  let r1 := flush_buffer s0 o
  let r2 := try_update_listens r1.1 o
  match session_poll r2.1 o with
  | .error f => .error f
  | .ok (p1, s3, tr3) =>
    let r4 := user_task_poll s3 o
    let s5 := send_pending_task r4.2.1 o
    .ok (p1.isPending && r4.1.isPending, s5, r1.2 ++ r2.2 ++ tr3 ++ r4.2.2)

/-- poll_next: the head termination check, the middle of the round, the
tail termination check; when either check fires the global shutdown
flag is stored and the poll transitions to wait_handle_poll. -/
def poll_next (s : ServiceState) (o : Oracle) :
    Except Fault (PollR × ServiceState × Trace) :=
  if termination_check s then .ok (wait_handle_poll { s with shutdown := true } o)
  else
    match poll_middle s o with
    | .error f => .error f
    | .ok (isPend, s1, tr) =>
      if termination_check s1 then
        let r := wait_handle_poll { s1 with shutdown := true } o
        .ok (r.1, r.2.1, tr ++ r.2.2)
      else .ok ((if isPend then PollR.pending else PollR.readySome), s1, tr)

/-- The state of a freshly constructed Service: empty maps and queues,
both receivers open, the future task manager not yet spawned, the
global shutdown flag clear. -/
structure InitState (s : ServiceState) : Prop where
  sessions : s.sessions = []
  listens : s.listens = []
  igd : s.igdRegistrations = []
  dials : s.dialProtocols = []
  pending : s.state.pending = 0
  notPre : s.state.shutdown = false
  next : s.nextSession = 0
  before : s.beforeSends = []
  manager : s.futureTaskManagerPresent = true
  future : s.futureTaskSender = Buffer.empty
  serviceHandles : s.serviceProtoHandles = []
  sessionHandles : s.sessionProtoHandles = []
  receiver : s.sessionEventReceiver = { queue := [], closed := false, terminated := false }
  ctxListens : s.serviceContextListens = []
  taskClosed : s.serviceTaskReceiver.closed = false
  taskTerminated : s.serviceTaskReceiver.terminated = false
  taskHigh : s.serviceTaskReceiver.high = []
  taskNormal : s.serviceTaskReceiver.normal = []
  taskAlive : s.serviceTaskReceiver.sendersAlive = true
  globalShutdown : s.shutdown = false
  wait : s.waitHandle = []

/-- Environment step: a session, handshake driver or listener sends an
event into the session-event channel; possible only while the channel
is open. -/
def push_session_event (s : ServiceState) (e : SessionEvent) : ServiceState :=
  { s with sessionEventReceiver :=
      { s.sessionEventReceiver with queue := s.sessionEventReceiver.queue ++ [e] } }

/-- Environment step: user code sends a task at a priority. -/
def push_user_task (s : ServiceState) (p : Priority) (t : ServiceTask) : ServiceState :=
  match p with
  | .high =>
    { s with serviceTaskReceiver :=
        { s.serviceTaskReceiver with high := s.serviceTaskReceiver.high ++ [t] } }
  | .normal =>
    { s with serviceTaskReceiver :=
        { s.serviceTaskReceiver with normal := s.serviceTaskReceiver.normal ++ [t] } }

/-- Reachable service states: an initial state, followed by any
interleaving of poll rounds, event arrivals while the session-event
channel is open, task arrivals while the task channel is open, and the
drop of every user control handle. -/
inductive Reachable : ServiceState → Prop where
  | init (s : ServiceState) (h : InitState s) : Reachable s
  | poll (s : ServiceState) (o : Oracle) (p : PollR) (s1 : ServiceState) (tr : Trace)
      (hr : Reachable s) (hp : poll_next s o = .ok (p, s1, tr)) : Reachable s1
  | enqueueEvent (s : ServiceState) (e : SessionEvent) (hr : Reachable s)
      (hopen : s.sessionEventReceiver.closed = false) : Reachable (push_session_event s e)
  | enqueueTask (s : ServiceState) (p : Priority) (t : ServiceTask) (hr : Reachable s)
      (hopen : s.serviceTaskReceiver.closed = false) : Reachable (push_user_task s p t)
  | dropControls (s : ServiceState) (hr : Reachable s) :
      Reachable { s with serviceTaskReceiver :=
        { s.serviceTaskReceiver with sendersAlive := false } }

/-! Concrete states and oracles used to witness the theorems below. -/

/-- An oracle with live channels of zero instantaneous capacity,
successful transports and incomplete join handles. -/
def oracle0 : Oracle :=
  { sessionChan := fun _ => { alive := true, capacity := 0 },
    serviceProtoChan := fun _ => { alive := true, capacity := 0 },
    sessionProtoChan := fun _ _ => { alive := true, capacity := 0 },
    futureChan := { alive := true, capacity := 0 },
    dialResult := fun _ => none,
    listenResult := fun _ => none,
    handleDone := fun _ => false }

/-- An oracle like oracle0 whose handler channels have room. -/
def oracle1 : Oracle :=
  { oracle0 with
    sessionChan := fun _ => { alive := true, capacity := 16 },
    serviceProtoChan := fun _ => { alive := true, capacity := 16 },
    sessionProtoChan := fun _ _ => { alive := true, capacity := 16 },
    futureChan := { alive := true, capacity := 16 } }

/-- A small service configuration for witnesses. -/
def config0 : ServiceConfig :=
  { maxConnectionNumber := 8,
    sessionConfig := { sendEventSize := 2, recvEventSize := 2 },
    event := [] }

/-- A freshly constructed event receiver. -/
def receiver0 : EventReceiver := { queue := [], closed := false, terminated := false }

/-- A freshly constructed task receiver. -/
def taskReceiver0 : TaskReceiver :=
  { high := [], normal := [], closed := false, sendersAlive := true, terminated := false }

/-- A freshly constructed service state with no protocols. -/
def base : ServiceState :=
  { protocolConfigs := [], sessions := [], listens := [], igdRegistrations := [],
    dialProtocols := [], config := config0,
    state := { forever := false, pending := 0, shutdown := false }, nextSession := 0,
    beforeSends := [], futureTaskManagerPresent := true, futureTaskSender := Buffer.empty,
    serviceProtoHandles := [], sessionProtoHandles := [], sessionEventReceiver := receiver0,
    serviceContextListens := [], serviceTaskReceiver := taskReceiver0, shutdown := false,
    waitHandle := [] }

/-- A sample open session with a remote pubkey, used by witnesses. -/
def ctl7 : SessionController :=
  { buffer := Buffer.empty,
    inner := { id := 7, address := [.other 4], ty := .inbound,
               remotePubkey := some { raw := 21, pid := 2 },
               closed := false, pendingDataSize := 0 } }

/-- A state whose service-level handler buffer sum exceeds the
receive threshold. -/
def sessionPollW : ServiceState :=
  { base with
    config := { config0 with sessionConfig := { sendEventSize := 2, recvEventSize := 0 } },
    serviceProtoHandles := [(1, { holding := [.init], sent := [] })] }

/-- A state whose per-session outbound buffer sum exceeds the send
threshold. -/
def userTaskPollW : ServiceState :=
  { base with
    config := { config0 with sessionConfig := { sendEventSize := 0, recvEventSize := 2 } },
    sessions :=
      [(7, { ctl7 with buffer := { holding := [(.high, .sessionClose 7)], sent := [] } })] }

/-! Claim theorems. -/

/-- C1: inbound backpressure.  In every service state in which the sum
of len over the service-level handler buffers, or the sum over the
session-level handler buffers, exceeds recv_event_size, session_poll
returns Pending with the state unchanged: the session-event receiver
is not polled and no SessionEvent is consumed. -/
theorem session_poll_backpressure (s : ServiceState) (o : Oracle)
    (h : read_service_buf s > s.config.sessionConfig.recvEventSize ∨
         read_session_buf s > s.config.sessionConfig.recvEventSize) :
    session_poll s o = .ok (.pending, s, []) := by
  unfold session_poll
  rcases h with h | h <;> simp [h]

/-- Witness for C1 at a concrete over-threshold state. -/
theorem session_poll_backpressure_witness :
    (read_service_buf sessionPollW > sessionPollW.config.sessionConfig.recvEventSize ∨
     read_session_buf sessionPollW > sessionPollW.config.sessionConfig.recvEventSize) ∧
    session_poll sessionPollW oracle0 = .ok (.pending, sessionPollW, []) :=
  ⟨Or.inl (by decide),
   session_poll_backpressure sessionPollW oracle0 (Or.inl (by decide))⟩

/-- C2: outbound backpressure.  In every service state in which the
sum of the per-session outbound buffer lengths exceeds send_event_size,
user_task_poll returns Pending with the state unchanged, so no
ServiceTask is consumed while the sum stays above the threshold. -/
theorem user_task_poll_backpressure (s : ServiceState) (o : Oracle)
    (h : write_buf s > s.config.sessionConfig.sendEventSize) :
    user_task_poll s o = (.pending, s, []) := by
  unfold user_task_poll
  simp [h]

/-- Witness for C2 at a concrete over-threshold state. -/
theorem user_task_poll_backpressure_witness :
    write_buf userTaskPollW > userTaskPollW.config.sessionConfig.sendEventSize ∧
    user_task_poll userTaskPollW oracle0 = (.pending, userTaskPollW, []) :=
  ⟨by decide, user_task_poll_backpressure userTaskPollW oracle0 (by decide)⟩

/-- A state with one session stored under id 1, used by the C5
witness. -/
def genW : ServiceState := { base with sessions := [(1, ctl7)], nextSession := 0 }

/-- Wrap-around arithmetic fact behind the probe-index construction of
the C5 proof. -/
theorem wrap_mod_eq (c1 k : Nat) (hc1 : c1 < 4294967296) (hk : k < 4294967296) :
    (c1 + (k + 4294967296 - c1) % 4294967296) % 4294967296 = k := by
  omega

/-- The probe loop finds the first unoccupied id of the wrap-around
probe sequence whenever the given fuel reaches one. -/
theorem genAux_finds (occ : Nat → Bool) :
    ∀ (fuel cur : Nat), (∃ i, 1 ≤ i ∧ i ≤ fuel ∧ occ ((cur + i) % idW) = false) →
    ∃ r j, genAux occ cur fuel = some r ∧ occ r = false ∧
      1 ≤ j ∧ j ≤ fuel ∧ r = (cur + j) % idW ∧
      ∀ i, 1 ≤ i → i < j → occ ((cur + i) % idW) = true := by
  intro fuel
  induction fuel with
  | zero =>
    intro cur h
    obtain ⟨i, h1, h2, _⟩ := h
    omega
  | succ n ih =>
    intro cur h
    obtain ⟨i, hi1, hi2, hfree⟩ := h
    by_cases hocc : occ ((cur + 1) % idW) = true
    · have hne : i ≠ 1 := by
        intro hone
        rw [hone] at hfree
        rw [hfree] at hocc
        exact Bool.noConfusion hocc
      have hkey : ((cur + 1) % idW + (i - 1)) % idW = (cur + i) % idW := by
        rw [Nat.mod_add_mod]
        congr 1
        omega
      obtain ⟨r, j, hg, hro, hj1, hj2, hrj, hmin⟩ :=
        ih ((cur + 1) % idW) ⟨i - 1, by omega, by omega, by rw [hkey]; exact hfree⟩
      refine ⟨r, j + 1, ?_, hro, by omega, by omega, ?_, ?_⟩
      · unfold genAux
        simp only [hocc, if_true]
        exact hg
      · rw [hrj, Nat.mod_add_mod]
        congr 1
        omega
      · intro i2 h1 h2
        rcases Nat.eq_or_lt_of_le h1 with h1e | h1l
        · rw [← h1e]
          exact hocc
        · have := hmin (i2 - 1) (by omega) (by omega)
          rw [Nat.mod_add_mod] at this
          have harg : (cur + 1) + (i2 - 1) = cur + i2 := by omega
          rw [harg] at this
          exact this
    · refine ⟨(cur + 1) % idW, 1, ?_, by simpa using hocc, le_refl 1, by omega, rfl, ?_⟩
      · unfold genAux
        simp only [hocc, if_false]
        simp at hocc
        simp [hocc]
      · intro i2 h1 h2
        omega

/-- Whenever some id below the wrap bound is unoccupied, the probe loop
with full fuel succeeds, returning the first free id of the wrapping
probe sequence. -/
theorem genAux_total (occ : Nat → Bool) (cur : Nat)
    (hfree : ∃ k, k < idW ∧ occ k = false) :
    ∃ r, genAux occ cur idW = some r ∧ occ r = false ∧
      ∃ j, 1 ≤ j ∧ j ≤ idW ∧ r = (cur + j) % idW ∧
        ∀ i, 1 ≤ i → i < j → occ ((cur + i) % idW) = true := by
  obtain ⟨k, hk, hkfree⟩ := hfree
  have hW : 0 < idW := by unfold idW; omega
  have hlt : (k + idW - (cur + 1) % idW) % idW < idW := Nat.mod_lt _ hW
  have harith :
      (cur + ((k + idW - (cur + 1) % idW) % idW + 1)) % idW = k := by
    have h1 : (cur + 1) % idW < idW := Nat.mod_lt _ hW
    have h2 : cur + ((k + idW - (cur + 1) % idW) % idW + 1) =
        (cur + 1) + (k + idW - (cur + 1) % idW) % idW := by ring
    rw [h2, ← Nat.mod_add_mod]
    generalize hgen : (cur + 1) % idW = c1 at h1 ⊢
    exact wrap_mod_eq c1 k h1 hk
  have hi : ∃ i, 1 ≤ i ∧ i ≤ idW ∧ occ ((cur + i) % idW) = false := by
    refine ⟨(k + idW - (cur + 1) % idW) % idW + 1, by omega, by omega, ?_⟩
    rw [harith]
    exact hkfree
  obtain ⟨r, j, hg, hro, hj1, hj2, hrj, hmin⟩ := genAux_finds occ idW cur hi
  exact ⟨r, hg, hro, j, hj1, hj2, hrj, hmin⟩

/-- C5: SessionId allocation.  Whenever some id below the wrap bound is
not a key of the sessions map, generate_next_session terminates with a
next_session that is not present in the map, reached from the previous
value by repeated wrapping increments that probe only occupied ids. -/
theorem generate_next_session_fresh (s : ServiceState)
    (hfree : ∃ k, k < idW ∧ mapContains k s.sessions = false) :
    ∃ s2, generate_next_session s = some s2 ∧
      mapContains s2.nextSession s.sessions = false ∧
      s2.sessions = s.sessions ∧
      ∃ j, 1 ≤ j ∧ j ≤ idW ∧ s2.nextSession = (s.nextSession + j) % idW ∧
        ∀ i, 1 ≤ i → i < j → mapContains ((s.nextSession + i) % idW) s.sessions = true := by
  obtain ⟨r, hg, hro, j, hj1, hj2, hrj, hmin⟩ :=
    genAux_total (fun n => mapContains n s.sessions) s.nextSession hfree
  refine ⟨{ s with nextSession := r }, ?_, hro, rfl, j, hj1, hj2, hrj, hmin⟩
  unfold generate_next_session
  rw [hg]
  rfl

/-- Witness for C5: a state with one session occupying id 1. -/
theorem generate_next_session_fresh_witness :
    (∃ k, k < idW ∧ mapContains k genW.sessions = false) ∧
    ∃ s2, generate_next_session genW = some s2 ∧
      mapContains s2.nextSession genW.sessions = false ∧
      s2.sessions = genW.sessions ∧
      ∃ j, 1 ≤ j ∧ j ≤ idW ∧ s2.nextSession = (genW.nextSession + j) % idW ∧
        ∀ i, 1 ≤ i → i < j → mapContains ((genW.nextSession + i) % idW) genW.sessions = true :=
  ⟨⟨2, by decide, by decide⟩,
   generate_next_session_fresh genW ⟨2, by decide, by decide⟩⟩

/-- A state with one session and one pending outbound dial, used by
the C6 witness. -/
def c6S : ServiceState :=
  { base with sessions := [(7, ctl7)],
              state := { forever := false, pending := 1, shutdown := false } }

/-- The C6 witness state after the outbound decrement. -/
def c6S1 : ServiceState := { c6S with state := c6S.state.decrease }

/-- C6: connection limit.  On a HandshakeSuccess event the pending
counter is decremented first when the direction is outbound, and
session_open is invoked exactly when the number of active sessions
plus the pending counter does not exceed max_connection_number;
otherwise the state is returned unchanged with no effects, dropping
the connection. -/
theorem handshake_success_limit (s s1 : ServiceState) (o : Oracle) (handle : Nat)
    (pk : Option PublicKey) (addr : Multiaddr) (ty : SessionType) (la : Option Multiaddr)
    (hs1 : s1 = if ty.isOutbound then { s with state := s.state.decrease } else s)
    (hov : s1.sessions.length + s1.state.pending < usizeW) :
    handle_session_event s o (.handshakeSuccess handle pk addr ty la) =
      (if reached_max_connection_limit s1 then .ok (s1, [])
       else session_open s1 handle pk addr ty la) ∧
    (reached_max_connection_limit s1 = false ↔
      s1.sessions.length + s1.state.pending ≤ s1.config.maxConnectionNumber) := by
  constructor
  · rw [hs1]
    rfl
  · unfold reached_max_connection_limit checked_add State.intoInner
    simp only [Option.getD_some]
    rw [if_pos hov]
    simp [Nat.not_lt]

/-- Witness for C6 at a concrete outbound handshake. -/
theorem handshake_success_limit_witness :
    c6S1.sessions.length + c6S1.state.pending < usizeW ∧
    (reached_max_connection_limit c6S1 = false ↔
      c6S1.sessions.length + c6S1.state.pending ≤ c6S1.config.maxConnectionNumber) :=
  ⟨by decide,
   (handshake_success_limit c6S c6S1 oracle0 5 none [.other 4] .outbound none rfl
     (by decide)).2⟩

/-- No two distinct entries of a sessions list share a non-null remote
pubkey. -/
def NoDupPubkeys (l : List (SessionId × SessionController)) : Prop :=
  l.Pairwise fun a b => ∀ k : PublicKey,
    a.2.inner.remotePubkey = some k → b.2.inner.remotePubkey = some k → False

/-- session_handles_open leaves the sessions map unchanged. -/
theorem session_handles_open_sessions (s : ServiceState) (id : SessionId) :
    (session_handles_open s id).sessions = s.sessions := by
  unfold session_handles_open
  generalize s.protocolConfigs = l
  induction l generalizing s with
  | nil => rfl
  | cons e t ih =>
    simp only [List.foldl_cons]
    rw [ih]
    split <;> rfl

/-- The probe loop never returns an occupied id. -/
theorem genAux_not_occupied (occ : Nat → Bool) :
    ∀ (fuel cur r : Nat), genAux occ cur fuel = some r → occ r = false := by
  intro fuel
  induction fuel with
  | zero =>
    intro cur r h
    exact absurd h (by simp [genAux])
  | succ n ih =>
    intro cur r h
    unfold genAux at h
    by_cases hocc : occ ((cur + 1) % idW) = true
    · simp only [hocc, if_true] at h
      exact ih _ _ h
    · simp only [hocc, if_false] at h
      simp only [Bool.not_eq_true] at hocc
      rw [if_neg] at h
      · cases h
        exact hocc
      · simp [hocc]

/-- Characterization of a successful open_rest: a fresh id was probed
and the new controller is consed onto the sessions map. -/
theorem open_rest_ok (s : ServiceState) (pk : Option PublicKey) (addr : Multiaddr)
    (ty : SessionType) (target : TargetProtocol) (s1 : ServiceState) (tr : Trace)
    (hopen : open_rest s pk addr ty target = .ok (s1, tr)) :
    ∃ nid, genAux (fun n => mapContains n s.sessions) s.nextSession idW = some nid ∧
      mapContains nid s.sessions = false ∧
      s1.sessions =
        (nid, ({ buffer := Buffer.empty,
                 inner := { id := nid, address := addr, ty := ty, remotePubkey := pk,
                            closed := false, pendingDataSize := 0 } } : SessionController))
          :: s.sessions := by
  unfold open_rest at hopen
  cases hg : genAux (fun n => mapContains n s.sessions) s.nextSession idW with
  | none =>
    rw [hg] at hopen
    exact absurd hopen (by simp)
  | some nid =>
    rw [hg] at hopen
    refine ⟨nid, rfl, genAux_not_occupied _ _ _ _ hg, ?_⟩
    simp only [Except.ok.injEq, Prod.mk.injEq] at hopen
    obtain ⟨h1, _⟩ := hopen
    rw [← h1, session_handles_open_sessions]

/-- open_rest preserves pubkey distinctness when the inserted pubkey
does not occur among the existing sessions. -/
theorem open_rest_nodup (s : ServiceState) (pk : Option PublicKey) (addr : Multiaddr)
    (ty : SessionType) (target : TargetProtocol) (s1 : ServiceState) (tr : Trace)
    (hnd : NoDupPubkeys s.sessions)
    (hpk : ∀ k, pk = some k → ∀ e ∈ s.sessions, ¬ e.2.inner.remotePubkey = some k)
    (hopen : open_rest s pk addr ty target = .ok (s1, tr)) :
    NoDupPubkeys s1.sessions := by
  obtain ⟨nid, _, _, hsess⟩ := open_rest_ok s pk addr ty target s1 tr hopen
  rw [hsess]
  refine List.pairwise_cons.mpr ⟨?_, hnd⟩
  intro b hb k hk1 hk2
  exact hpk k hk1 b hb hk2

/-- C3: duplicate-connection rejection.  When the incoming remote
pubkey matches the pubkey of an existing session, session_open shuts
the handle down, emits RepeatedConnection with the existing session id
as a DialerError when outbound and as a ListenError when inbound, and
returns without touching the sessions map; consequently session_open
preserves the invariant that distinct live sessions with non-null
pubkeys carry distinct pubkeys. -/
theorem session_open_repeated (s : ServiceState) (handle : Nat) (addr : Multiaddr)
    (la : Option Multiaddr) :
    (∀ (key : PublicKey) fc, findDup key s.sessions = some fc →
      (session_open s handle (some key) addr .outbound la =
        .ok ({ s with dialProtocols := mapRemove addr s.dialProtocols },
             [.shutdownHandle handle,
              .handleError (.dialerError addr (.repeatedConnection fc.2.inner.id))]) ∧
       ∀ a, la = some a →
        session_open s handle (some key) addr .inbound la =
          .ok ({ s with dialProtocols := mapRemove addr s.dialProtocols },
               [.shutdownHandle handle,
                .handleError (.listenError a (.repeatedConnection fc.2.inner.id))]))) ∧
    (∀ (pk : Option PublicKey) (ty : SessionType) (s1 : ServiceState) (tr : Trace),
      NoDupPubkeys s.sessions →
      session_open s handle pk addr ty la = .ok (s1, tr) → NoDupPubkeys s1.sessions) := by
  constructor
  · intro key fc hfc
    constructor
    · unfold session_open
      simp [hfc, SessionType.isOutbound]
    · intro a hla
      subst hla
      unfold session_open
      simp [hfc, SessionType.isOutbound]
  · intro pk ty s1 tr hnd hopen
    unfold session_open at hopen
    cases pk with
    | none =>
      dsimp only at hopen
      refine open_rest_nodup _ none _ _ _ _ _ ?_ ?_ hopen
      · exact hnd
      · intro k hk
        cases hk
    | some key =>
      dsimp only at hopen
      cases hfd : findDup key s.sessions with
      | some fc =>
        rw [hfd] at hopen
        dsimp only at hopen
        cases ty with
        | outbound =>
          simp [SessionType.isOutbound] at hopen
          obtain ⟨h1, _⟩ := hopen
          rw [← h1]
          exact hnd
        | inbound =>
          cases la with
          | none => simp [SessionType.isOutbound] at hopen
          | some a =>
            simp [SessionType.isOutbound] at hopen
            obtain ⟨h1, _⟩ := hopen
            rw [← h1]
            exact hnd
      | none =>
        rw [hfd] at hopen
        dsimp only at hopen
        have hnone : ∀ e ∈ s.sessions, ¬ e.2.inner.remotePubkey = some key := by
          intro e he
          unfold findDup at hfd
          have := List.find?_eq_none.mp hfd e he
          simpa using this
        cases hext : extract_peer_id addr with
        | some pid =>
          rw [hext] at hopen
          dsimp only at hopen
          by_cases hpid : key.pid = pid
          · rw [if_neg (by simp [hpid])] at hopen
            refine open_rest_nodup _ (some key) _ _ _ _ _ ?_ ?_ hopen
            · exact hnd
            · intro k hk
              cases hk
              exact hnone
          · rw [if_pos (by simpa using hpid)] at hopen
            simp only [Except.ok.injEq, Prod.mk.injEq] at hopen
            obtain ⟨h1, _⟩ := hopen
            rw [← h1]
            exact hnd
        | none =>
          rw [hext] at hopen
          dsimp only at hopen
          refine open_rest_nodup _ (some key) _ _ _ _ _ ?_ ?_ hopen
          · exact hnd
          · intro k hk
            cases hk
            exact hnone

/-- Witness for C3: a duplicate outbound connection against the stored
session with id 7 is rejected and distinctness is preserved. -/
theorem session_open_repeated_witness :
    findDup { raw := 21, pid := 2 } genW.sessions = some (1, ctl7) ∧
    session_open genW 5 (some { raw := 21, pid := 2 }) [.other 9] .outbound none =
      .ok ({ genW with dialProtocols := mapRemove [.other 9] genW.dialProtocols },
           [.shutdownHandle 5,
            .handleError (.dialerError [.other 9] (.repeatedConnection 7))]) :=
  ⟨by decide,
   by
    have h := ((session_open_repeated genW 5 [.other 9] none).1
      { raw := 21, pid := 2 } (1, ctl7) (by decide)).1
    simpa using h⟩

/-- C8: peer-id validation.  With a remote pubkey present and no
duplicate session, a peer-id component of the remote address that
differs from the peer id of the pubkey makes session_open emit
PeerIdNotMatch and return with no session created; when the address
has no peer-id component, the session is created and its stored
SessionContext address carries an appended component derived from the
pubkey. -/
theorem session_open_peer_id (s : ServiceState) (handle : Nat) (key : PublicKey)
    (addr : Multiaddr) (ty : SessionType) (la : Option Multiaddr)
    (hnodup : findDup key s.sessions = none) :
    (∀ pid, extract_peer_id addr = some pid → key.pid ≠ pid →
      session_open s handle (some key) addr ty la =
        .ok ({ s with dialProtocols := mapRemove addr s.dialProtocols },
             [.handleError (.dialerError addr .peerIdNotMatch)])) ∧
    (extract_peer_id addr = none →
      (∃ k, k < idW ∧ mapContains k s.sessions = false) →
      ∃ s1 tr nid ctl, session_open s handle (some key) addr ty la = .ok (s1, tr) ∧
        mapContains nid s.sessions = false ∧
        mapLookup nid s1.sessions = some ctl ∧
        ctl.inner.address = addr ++ [.p2p key.pid] ∧
        ctl.inner.remotePubkey = some key) := by
  constructor
  · intro pid hext hne
    unfold session_open
    dsimp only
    rw [hnodup]
    dsimp only
    rw [hext]
    dsimp only
    rw [if_pos hne]
  · intro hext hfree
    obtain ⟨r, hg, hro, _⟩ :=
      genAux_total (fun n => mapContains n s.sessions) s.nextSession hfree
    unfold session_open
    dsimp only
    rw [hnodup]
    dsimp only
    rw [hext]
    dsimp only
    unfold open_rest
    dsimp only
    rw [hg]
    dsimp only
    refine ⟨_, _, r,
      { buffer := Buffer.empty,
        inner := { id := r, address := addr ++ [MProtocol.p2p key.pid], ty := ty,
                   remotePubkey := some key, closed := false, pendingDataSize := 0 } },
      rfl, hro, ?_, rfl, rfl⟩
    rw [session_handles_open_sessions]
    dsimp only
    simp [mapLookup]

/-- Witness for C8: a mismatching peer-id component is rejected; an
address without one gains the derived component. -/
theorem session_open_peer_id_witness :
    (findDup { raw := 8, pid := 2 } base.sessions = none ∧
     session_open base 5 (some { raw := 8, pid := 2 }) [.p2p 3] .outbound none =
       .ok ({ base with dialProtocols := mapRemove [.p2p 3] base.dialProtocols },
            [.handleError (.dialerError [.p2p 3] .peerIdNotMatch)])) ∧
    (∃ s1 tr nid ctl,
      session_open base 5 (some { raw := 8, pid := 2 }) [.other 4] .outbound none =
        .ok (s1, tr) ∧
      mapContains nid base.sessions = false ∧
      mapLookup nid s1.sessions = some ctl ∧
      ctl.inner.address = [.other 4] ++ [.p2p 2] ∧
      ctl.inner.remotePubkey = some { raw := 8, pid := 2 }) :=
  ⟨⟨by decide,
    (session_open_peer_id base 5 { raw := 8, pid := 2 } [.p2p 3] .outbound none
      (by decide)).1 3 (by decide) (by decide)⟩,
   (session_open_peer_id base 5 { raw := 8, pid := 2 } [.other 4] .outbound none
      (by decide)).2 (by decide) ⟨0, by decide, by decide⟩⟩

/-! Frame and monotonicity lemmas used by the shutdown, error and
reachability theorems. -/

/-- Items present in a buffer (holding or already sent) stay present
across try_send. -/
theorem trySend_mem_mono {α : Type} (c : ChannelCond) (b : Buffer α) (x : α)
    (hx : x ∈ b.holding ++ b.sent) :
    x ∈ (Buffer.trySend c b).2.holding ++ (Buffer.trySend c b).2.sent := by
  unfold Buffer.trySend
  split
  · exact hx
  · split
    · exact hx
    · dsimp only
      rw [List.mem_append] at hx ⊢
      rcases hx with hx | hx
      · rcases List.mem_append.mp
          ((List.take_append_drop (min c.capacity b.holding.length) b.holding ▸
            hx : x ∈ _ ++ _)) with h | h
        · right
          exact List.mem_append.mpr (Or.inr h)
        · left
          exact h
      · right
        exact List.mem_append.mpr (Or.inl hx)

/-- Unfolding of lookup at a cons cell. -/
theorem mapLookup_cons {α β : Type} [DecidableEq α] (k a : α) (b : β) (t : List (α × β)) :
    mapLookup k ((a, b) :: t) = if a = k then some b else mapLookup k t := rfl

/-- Unfolding of update at a cons cell. -/
theorem mapUpdate_cons {α β : Type} [DecidableEq α] (k a : α) (f : β → β) (b : β)
    (t : List (α × β)) :
    mapUpdate k f ((a, b) :: t) =
      (if a = k then (a, f b) else (a, b)) :: mapUpdate k f t := by
  simp only [mapUpdate, List.map_cons]

/-- Lookup through a key-preserving map of the values. -/
theorem mapLookup_map {α β : Type} [DecidableEq α] (k : α) (g : α → β → β) :
    ∀ (l : List (α × β)),
      mapLookup k (l.map fun e => (e.1, g e.1 e.2)) = (mapLookup k l).map (g k) := by
  intro l
  induction l with
  | nil => rfl
  | cons e t ih =>
    obtain ⟨a, b⟩ := e
    simp only [List.map_cons, mapLookup_cons]
    by_cases h : a = k
    · subst h
      simp [mapLookup_cons]
    · simp only [mapLookup_cons, h, if_false]
      exact ih

/-- Lookup at the updated key applies the update function. -/
theorem mapLookup_mapUpdate_same {α β : Type} [DecidableEq α] (k : α) (f : β → β) :
    ∀ (l : List (α × β)), mapLookup k (mapUpdate k f l) = (mapLookup k l).map f := by
  intro l
  induction l with
  | nil => rfl
  | cons e t ih =>
    obtain ⟨a, b⟩ := e
    rw [mapUpdate_cons]
    by_cases h : a = k
    · rw [if_pos h, mapLookup_cons, mapLookup_cons, if_pos h, if_pos h]
      rfl
    · rw [if_neg h, mapLookup_cons, mapLookup_cons, if_neg h, if_neg h]
      exact ih

/-- Lookup away from the updated key is unchanged. -/
theorem mapLookup_mapUpdate_ne {α β : Type} [DecidableEq α] (k k2 : α) (f : β → β)
    (hne : k ≠ k2) :
    ∀ (l : List (α × β)), mapLookup k2 (mapUpdate k f l) = mapLookup k2 l := by
  intro l
  induction l with
  | nil => rfl
  | cons e t ih =>
    obtain ⟨a, b⟩ := e
    rw [mapUpdate_cons]
    by_cases h : a = k
    · have hak2 : ¬ a = k2 := fun hc => hne (h ▸ hc)
      rw [if_pos h, mapLookup_cons, mapLookup_cons, if_neg hak2, if_neg hak2]
      exact ih
    · by_cases h2 : a = k2
      · rw [if_neg h, mapLookup_cons, mapLookup_cons, if_pos h2, if_pos h2]
      · rw [if_neg h, mapLookup_cons, mapLookup_cons, if_neg h2, if_neg h2]
        exact ih

/-- Fields never written by the ordinary (non-quick-shutdown) service
operations: the global shutdown flag, the session-event receiver and
the user-task receiver. -/
structure Untouched (s s2 : ServiceState) : Prop where
  shutdown : s2.shutdown = s.shutdown
  receiver : s2.sessionEventReceiver = s.sessionEventReceiver
  task : s2.serviceTaskReceiver = s.serviceTaskReceiver

/-- Untouched is reflexive. -/
theorem untouched_refl (s : ServiceState) : Untouched s s := ⟨Eq.refl _, Eq.refl _, Eq.refl _⟩

/-- Untouched composes. -/
theorem Untouched.trans {a b c : ServiceState} (h1 : Untouched a b) (h2 : Untouched b c) :
    Untouched a c :=
  ⟨h2.shutdown.trans h1.shutdown, h2.receiver.trans h1.receiver, h2.task.trans h1.task⟩

/-- distribute_to_session changes only the sessions map. -/
theorem distribute_to_session_eq (s : ServiceState) (o : Oracle) :
    (distribute_to_session s o).1 =
      { s with sessions := (distribute_to_session s o).1.sessions } := by
  unfold distribute_to_session
  split <;> rfl

/-- distribute_to_session leaves the flagged fields untouched. -/
theorem distribute_to_session_untouched (s : ServiceState) (o : Oracle) :
    Untouched s (distribute_to_session s o).1 := by
  rw [distribute_to_session_eq]
  exact ⟨rfl, rfl, rfl⟩

/-- session_close changes only the sessions map and the session-level
handler map. -/
theorem session_close_eq (s : ServiceState) (o : Oracle) (id : SessionId) (src : Source) :
    (session_close s o id src).1 =
      { s with sessions := (session_close s o id src).1.sessions,
               sessionProtoHandles := (session_close s o id src).1.sessionProtoHandles } := by
  cases src with
  | external =>
    unfold session_close
    dsimp only
    split
    · rw [distribute_to_session_eq]
    · rfl
  | internal =>
    unfold session_close
    dsimp only
    split <;> rfl

/-- session_close leaves the flagged fields untouched. -/
theorem session_close_untouched (s : ServiceState) (o : Oracle) (id : SessionId)
    (src : Source) : Untouched s (session_close s o id src).1 := by
  rw [session_close_eq]
  exact ⟨rfl, rfl, rfl⟩

/-- Unfolding of foldSteps at a cons cell. -/
theorem foldSteps_cons {γ : Type} (f : ServiceState → γ → ServiceState × Trace)
    (init : ServiceState × Trace) (x : γ) (xs : List γ) :
    foldSteps f init (x :: xs) =
      foldSteps f ((f init.1 x).1, init.2 ++ (f init.1 x).2) xs := rfl

/-- A state predicate preserved by each step is preserved by the fold. -/
theorem foldSteps_pres {γ : Type} (f : ServiceState → γ → ServiceState × Trace)
    (P : ServiceState → Prop) (hstep : ∀ st x, P st → P (f st x).1) :
    ∀ (xs : List γ) (init : ServiceState × Trace), P init.1 → P (foldSteps f init xs).1 := by
  intro xs
  induction xs with
  | nil => intro init h; exact h
  | cons x t ih =>
    intro init h
    rw [foldSteps_cons]
    exact ih _ (hstep _ _ h)

/-- Trace entries of the initial accumulator survive the fold. -/
theorem foldSteps_mem_trace {γ : Type} (f : ServiceState → γ → ServiceState × Trace) :
    ∀ (xs : List γ) (init : ServiceState × Trace) (e : Effect),
      e ∈ init.2 → e ∈ (foldSteps f init xs).2 := by
  intro xs
  induction xs with
  | nil => intro init e h; exact h
  | cons x t ih =>
    intro init e h
    rw [foldSteps_cons]
    exact ih _ e (List.mem_append.mpr (Or.inl h))

/-- handle_shutdown with quick set to false leaves the flagged fields
untouched. -/
theorem handle_shutdown_false_untouched (s : ServiceState) (o : Oracle) :
    Untouched s (handle_shutdown s o false).1 := by
  unfold handle_shutdown
  simp only [Bool.false_eq_true, if_false]
  apply foldSteps_pres _ (fun st => Untouched s st)
  · intro st x h
    exact h.trans (session_close_untouched st o x .external)
  · exact ⟨rfl, rfl, rfl⟩

/-- distribute_to_user_level leaves the flagged fields untouched. -/
theorem distribute_to_user_level_untouched (s : ServiceState) (o : Oracle) :
    Untouched s (distribute_to_user_level s o).1 := by
  unfold distribute_to_user_level
  split
  · exact untouched_refl s
  · dsimp only
    split
    · refine Untouched.trans ?_ (handle_shutdown_false_untouched _ o)
      exact ⟨rfl, rfl, rfl⟩
    · exact ⟨rfl, rfl, rfl⟩

/-- handle_message leaves the flagged fields untouched. -/
theorem handle_message_untouched (s : ServiceState) (o : Oracle) (target : TargetSession)
    (protoId : ProtocolId) (priority : Priority) (data : Bytes) :
    Untouched s (handle_message s o target protoId priority data).1 := by
  unfold handle_message
  cases target with
  | single id =>
    refine Untouched.trans ?_ (distribute_to_session_untouched _ o)
    exact ⟨rfl, rfl, rfl⟩
  | multi ids =>
    dsimp only
    refine Untouched.trans ?_ (distribute_to_session_untouched _ o)
    refine List.foldlRecOn ids _ _ (untouched_refl s) ?_
    intro st h id _
    refine h.trans ?_
    exact ⟨rfl, rfl, rfl⟩
  | all =>
    refine Untouched.trans ?_ (distribute_to_session_untouched _ o)
    exact ⟨rfl, rfl, rfl⟩

/-- protocol_open leaves the flagged fields untouched. -/
theorem protocol_open_untouched (s : ServiceState) (o : Oracle) (id : SessionId)
    (protoId : ProtocolId) (version : Nat) (src : Source) :
    Untouched s (protocol_open s o id protoId version src).1 := by
  cases src with
  | external =>
    unfold protocol_open
    dsimp only
    split
    · refine Untouched.trans ?_ (distribute_to_session_untouched _ o)
      exact ⟨rfl, rfl, rfl⟩
    · exact untouched_refl s
  | internal =>
    unfold protocol_open
    dsimp only
    split
    · split <;> exact untouched_refl s
    · exact untouched_refl s

/-- protocol_message does not change the state. -/
theorem protocol_message_state (s : ServiceState) (id : SessionId) (protoId : ProtocolId)
    (data : Bytes) : (protocol_message s id protoId data).1 = s := by
  unfold protocol_message
  split
  · split <;> rfl
  · rfl

/-- protocol_close leaves the flagged fields untouched. -/
theorem protocol_close_untouched (s : ServiceState) (o : Oracle) (id : SessionId)
    (protoId : ProtocolId) (src : Source) :
    Untouched s (protocol_close s o id protoId src).1 := by
  cases src with
  | external =>
    unfold protocol_close
    dsimp only
    split
    · refine Untouched.trans ?_ (distribute_to_session_untouched _ o)
      exact ⟨rfl, rfl, rfl⟩
    · exact untouched_refl s
  | internal =>
    unfold protocol_close
    exact ⟨rfl, rfl, rfl⟩

/-- try_update_listens leaves the flagged fields untouched. -/
theorem try_update_listens_untouched (s : ServiceState) (o : Oracle) :
    Untouched s (try_update_listens s o).1 := by
  unfold try_update_listens
  split
  · exact untouched_refl s
  · refine Untouched.trans ?_ (distribute_to_user_level_untouched _ o)
    exact ⟨rfl, rfl, rfl⟩

/-- session_handles_open leaves the flagged fields untouched. -/
theorem session_handles_open_untouched (s : ServiceState) (id : SessionId) :
    Untouched s (session_handles_open s id) := by
  unfold session_handles_open
  generalize s.protocolConfigs = l
  refine List.foldlRecOn l _ _ (untouched_refl s) ?_
  intro st h e _
  refine h.trans ?_
  split <;> exact ⟨rfl, rfl, rfl⟩

/-- A successful session_open leaves the flagged fields untouched. -/
theorem session_open_untouched (s : ServiceState) (handle : Nat) (pk : Option PublicKey)
    (addr : Multiaddr) (ty : SessionType) (la : Option Multiaddr) (s1 : ServiceState)
    (tr : Trace) (h : session_open s handle pk addr ty la = .ok (s1, tr)) :
    Untouched s s1 := by
  have hrest : ∀ (s0 : ServiceState) (pk2 : Option PublicKey) (a2 : Multiaddr)
      (t2 : TargetProtocol), open_rest s0 pk2 a2 ty t2 = .ok (s1, tr) →
      Untouched s0 s1 := by
    intro s0 pk2 a2 t2 hO
    unfold open_rest at hO
    cases hg : genAux (fun n => mapContains n s0.sessions) s0.nextSession idW with
    | none =>
      rw [hg] at hO
      exact absurd hO (by simp)
    | some nid =>
      rw [hg] at hO
      simp only [Except.ok.injEq, Prod.mk.injEq] at hO
      obtain ⟨h1, _⟩ := hO
      rw [← h1]
      refine Untouched.trans ?_ (session_handles_open_untouched _ nid)
      exact ⟨rfl, rfl, rfl⟩
  unfold session_open at h
  cases pk with
  | none =>
    dsimp only at h
    refine Untouched.trans ?_ (hrest _ _ _ _ h)
    exact ⟨rfl, rfl, rfl⟩
  | some key =>
    dsimp only at h
    cases hfd : findDup key s.sessions with
    | some fc =>
      rw [hfd] at h
      dsimp only at h
      by_cases hty : ty.isOutbound = true
      · rw [if_pos hty] at h
        simp only [Except.ok.injEq, Prod.mk.injEq] at h
        obtain ⟨h1, _⟩ := h
        rw [← h1]
        exact ⟨rfl, rfl, rfl⟩
      · rw [if_neg hty] at h
        cases la with
        | none => cases h
        | some a =>
          simp only [Except.ok.injEq, Prod.mk.injEq] at h
          obtain ⟨h1, _⟩ := h
          rw [← h1]
          exact ⟨rfl, rfl, rfl⟩
    | none =>
      rw [hfd] at h
      dsimp only at h
      cases hext : extract_peer_id addr with
      | some pid =>
        rw [hext] at h
        dsimp only at h
        by_cases hpid : key.pid ≠ pid
        · rw [if_pos hpid] at h
          simp only [Except.ok.injEq, Prod.mk.injEq] at h
          obtain ⟨h1, _⟩ := h
          rw [← h1]
          exact ⟨rfl, rfl, rfl⟩
        · rw [if_neg hpid] at h
          refine Untouched.trans ?_ (hrest _ _ _ _ h)
          exact ⟨rfl, rfl, rfl⟩
      | none =>
        rw [hext] at h
        dsimp only at h
        refine Untouched.trans ?_ (hrest _ _ _ _ h)
        exact ⟨rfl, rfl, rfl⟩

/-- Lookup misses exactly the lists without the key. -/
theorem mapLookup_eq_none {α β : Type} [DecidableEq α] (k : α) :
    ∀ (l : List (α × β)), mapLookup k l = none ↔ ∀ e ∈ l, e.1 ≠ k := by
  intro l
  induction l with
  | nil => simp [mapLookup]
  | cons e t ih =>
    obtain ⟨a, b⟩ := e
    rw [mapLookup_cons]
    by_cases h : a = k
    · simp [h]
    · simp [h, ih]

/-- The internal close path replaces the sessions map by its filter
away from the closed id. -/
theorem session_close_internal_sessions (s : ServiceState) (o : Oracle) (id : SessionId) :
    (session_close s o id .internal).1.sessions =
      s.sessions.filter fun e => decide (e.1 ≠ id) := by
  unfold session_close
  dsimp only
  split
  · rfl
  · next heq =>
    refine (List.filter_eq_self.mpr ?_).symm
    intro e he
    simpa using (mapLookup_eq_none id s.sessions).mp heq e he

/-- The internal close path filters the session-level handler map. -/
theorem session_close_internal_sph (s : ServiceState) (o : Oracle) (id : SessionId) :
    (session_close s o id .internal).1.sessionProtoHandles =
      s.sessionProtoHandles.filter fun e => decide (e.1.1 ≠ id) := by
  unfold session_close
  dsimp only
  split <;> rfl

/-- The internal close path emits the SessionClose user event of the
looked-up controller. -/
theorem session_close_internal_trace (s : ServiceState) (o : Oracle) (id : SessionId)
    (c : SessionController) (h : mapLookup id s.sessions = some c) :
    (session_close s o id .internal).2 = [.handleEvent (.sessionClose c.inner)] := by
  unfold session_close
  dsimp only
  rw [h]

/-- The internal-close fold over a list of ids filters all of them out
of the sessions map. -/
theorem close_internal_fold_sessions (o : Oracle) :
    ∀ (ids : List SessionId) (st : ServiceState) (tr : Trace),
      (foldSteps (fun st i => session_close st o i .internal) (st, tr) ids).1.sessions =
        st.sessions.filter fun e => decide (e.1 ∉ ids) := by
  intro ids
  induction ids with
  | nil =>
    intro st tr
    simp [foldSteps]
  | cons i t ih =>
    intro st tr
    rw [foldSteps_cons, ih]
    rw [session_close_internal_sessions]
    rw [List.filter_filter]
    apply List.filter_congr
    intro e _
    by_cases h1 : e.1 = i <;> by_cases h2 : e.1 ∈ t <;> simp [h1, h2]

/-- The internal-close fold over the session ids emits a SessionClose
user event for every session, provided the ids are distinct. -/
theorem close_internal_fold_events (o : Oracle) :
    ∀ (l : List (SessionId × SessionController)) (st : ServiceState) (tr : Trace),
      st.sessions = l → (l.map fun e => e.1).Nodup →
      ∀ p ∈ l, Effect.handleEvent (.sessionClose p.2.inner) ∈
        (foldSteps (fun st i => session_close st o i .internal) (st, tr)
          (l.map fun e => e.1)).2 := by
  intro l
  induction l with
  | nil =>
    intro st tr _ _ p hp
    cases hp
  | cons e t ih =>
    intro st tr hsess hnd p hp
    rw [List.map_cons] at hnd ⊢
    rw [foldSteps_cons]
    have hlk : mapLookup e.1 st.sessions = some e.2 := by
      rw [hsess]
      obtain ⟨a, b⟩ := e
      rw [mapLookup_cons, if_pos rfl]
    have hnd2 := List.nodup_cons.mp hnd
    have htail : (session_close st o e.1 .internal).1.sessions = t := by
      rw [session_close_internal_sessions, hsess]
      have ha : ∀ x ∈ t, x.1 ≠ e.1 := by
        intro x hx hxa
        exact hnd2.1 (hxa ▸ List.mem_map_of_mem (fun q => q.1) hx)
      obtain ⟨a, b⟩ := e
      simp only [List.filter_cons]
      rw [if_neg (by simp)]
      refine List.filter_eq_self.mpr ?_
      intro x hx
      simpa using ha x hx
    cases List.mem_cons.mp hp with
    | inl hpe =>
      subst hpe
      apply foldSteps_mem_trace
      rw [session_close_internal_trace st o p.1 p.2 hlk]
      exact List.mem_append.mpr (Or.inr (by simp))
    | inr hpt =>
      exact ih _ _ htail hnd2.2 p hpt

/-- Lookup survives distribute_to_session, and buffer contents are not
lost. -/
theorem distribute_to_session_lookup (s : ServiceState) (o : Oracle) (k : SessionId)
    (c : SessionController) (hl : mapLookup k s.sessions = some c) :
    ∃ c2, mapLookup k (distribute_to_session s o).1.sessions = some c2 ∧
      ∀ x, x ∈ c.buffer.holding ++ c.buffer.sent →
        x ∈ c2.buffer.holding ++ c2.buffer.sent := by
  unfold distribute_to_session
  split
  · exact ⟨c, hl, fun x h => h⟩
  · dsimp only
    rw [mapLookup_map k
      (fun a (b : SessionController) =>
        { b with buffer := (Buffer.trySend (o.sessionChan a) b.buffer).2 })]
    rw [hl]
    exact ⟨_, rfl, fun x hx => trySend_mem_mono _ _ x hx⟩

/-- One external close keeps every looked-up controller (with its
queued items) and queues the High SessionClose on its own session. -/
theorem session_close_external_mem (st : ServiceState) (o : Oracle) (i k : SessionId)
    (c : SessionController) (hl : mapLookup k st.sessions = some c) :
    ∃ c2, mapLookup k (session_close st o i .external).1.sessions = some c2 ∧
      (∀ x, x ∈ c.buffer.holding ++ c.buffer.sent →
        x ∈ c2.buffer.holding ++ c2.buffer.sent) ∧
      (k = i → (Priority.high, SessionEvent.sessionClose i) ∈
        c2.buffer.holding ++ c2.buffer.sent) := by
  unfold session_close
  dsimp only
  split
  · by_cases hk : k = i
    · subst hk
      have hl2 : mapLookup k
          ({ st with sessions :=
            mapUpdate k (fun c => c.push .high (.sessionClose k)) st.sessions } :
              ServiceState).sessions =
          some (c.push .high (.sessionClose k)) := by
        dsimp only
        rw [mapLookup_mapUpdate_same, hl]
        rfl
      obtain ⟨c2, hc2, hmono⟩ := distribute_to_session_lookup _ o k _ hl2
      refine ⟨c2, hc2, ?_, ?_⟩
      · intro x hx
        apply hmono
        unfold SessionController.push Buffer.push
        dsimp only
        simp only [List.mem_append] at hx ⊢
        rcases hx with hx | hx
        · simp [hx]
        · simp [hx]
      · intro _
        apply hmono
        unfold SessionController.push Buffer.push
        simp
    · have hl2 : mapLookup k
          ({ st with sessions :=
            mapUpdate i (fun c => c.push .high (.sessionClose i)) st.sessions } :
              ServiceState).sessions = some c := by
        dsimp only
        rw [mapLookup_mapUpdate_ne i k _ (fun hik => hk hik.symm), hl]
      obtain ⟨c2, hc2, hmono⟩ := distribute_to_session_lookup _ o k _ hl2
      exact ⟨c2, hc2, hmono, fun hki => absurd hki hk⟩
  · next hcon =>
    refine ⟨c, hl, fun x h => h, ?_⟩
    intro hk
    subst hk
    rw [mapContains, hl] at hcon
    simp at hcon

/-- The external-close fold keeps every session reachable and leaves
the queued High SessionClose in its queue. -/
theorem close_external_fold (o : Oracle) :
    ∀ (ids : List SessionId) (st : ServiceState) (tr : Trace) (k : SessionId)
      (c : SessionController),
      mapLookup k st.sessions = some c →
      (k ∈ ids ∨ (Priority.high, SessionEvent.sessionClose k) ∈
        c.buffer.holding ++ c.buffer.sent) →
      ∃ c2, mapLookup k
          (foldSteps (fun st i => session_close st o i .external) (st, tr) ids).1.sessions =
            some c2 ∧
        (Priority.high, SessionEvent.sessionClose k) ∈
          c2.buffer.holding ++ c2.buffer.sent := by
  intro ids
  induction ids with
  | nil =>
    intro st tr k c hl hd
    cases hd with
    | inl h => cases h
    | inr h => exact ⟨c, hl, h⟩
  | cons i t ih =>
    intro st tr k c hl hd
    rw [foldSteps_cons]
    obtain ⟨c2, hl2, hmono, hpush⟩ := session_close_external_mem st o i k c hl
    apply ih _ _ k c2 hl2
    cases hd with
    | inl h =>
      rcases List.mem_cons.mp h with h | h
      · subst h
        exact Or.inr (hpush rfl)
      · exact Or.inl h
    | inr h => exact Or.inr (hmono _ h)

/-- With distinct keys, every entry of an association list is found by
lookup. -/
theorem mapLookup_of_mem_nodup {α β : Type} [DecidableEq α] :
    ∀ (l : List (α × β)), (l.map fun e => e.1).Nodup →
      ∀ p ∈ l, mapLookup p.1 l = some p.2 := by
  intro l
  induction l with
  | nil =>
    intro _ p hp
    cases hp
  | cons e t ih =>
    intro hnd p hp
    obtain ⟨a, b⟩ := e
    rw [List.map_cons] at hnd
    have hnd2 := List.nodup_cons.mp hnd
    rw [mapLookup_cons]
    rcases List.mem_cons.mp hp with h | h
    · subst h
      rw [if_pos rfl]
    · by_cases hpa : a = p.1
      · exfalso
        apply hnd2.1
        rw [hpa]
        exact List.mem_map.mpr ⟨p, h, rfl⟩
      · rw [if_neg hpa]
        exact ih hnd2.2 p h

/-- Core fields of handle_shutdown: pre-shutdown entered, listens and
port registrations cleared, future task queue emptied. -/
theorem handle_shutdown_core (s : ServiceState) (o : Oracle) (quick : Bool) :
    (handle_shutdown s o quick).1.state = s.state.preShutdown ∧
    (handle_shutdown s o quick).1.listens = [] ∧
    (handle_shutdown s o quick).1.igdRegistrations = [] ∧
    (handle_shutdown s o quick).1.futureTaskSender = s.futureTaskSender.clear := by
  unfold handle_shutdown
  dsimp only
  split
  · apply foldSteps_pres _ (fun st => st.state = s.state.preShutdown ∧ st.listens = [] ∧
      st.igdRegistrations = [] ∧ st.futureTaskSender = s.futureTaskSender.clear)
    · intro st x h
      rw [session_close_eq]
      exact h
    · exact ⟨rfl, rfl, rfl, rfl⟩
  · apply foldSteps_pres _ (fun st => st.state = s.state.preShutdown ∧ st.listens = [] ∧
      st.igdRegistrations = [] ∧ st.futureTaskSender = s.futureTaskSender.clear)
    · intro st x h
      rw [session_close_eq]
      exact h
    · exact ⟨rfl, rfl, rfl, rfl⟩

/-- Receivers and handler maps after a quick handle_shutdown: both
receivers closed, the handler buffer maps cleared, the global flag
unchanged. -/
theorem handle_shutdown_true_receivers (s : ServiceState) (o : Oracle) :
    (handle_shutdown s o true).1.sessionEventReceiver =
      { s.sessionEventReceiver with closed := true } ∧
    (handle_shutdown s o true).1.serviceTaskReceiver =
      { s.serviceTaskReceiver with closed := true } ∧
    (handle_shutdown s o true).1.serviceProtoHandles = [] ∧
    (handle_shutdown s o true).1.sessionProtoHandles = [] ∧
    (handle_shutdown s o true).1.shutdown = s.shutdown := by
  unfold handle_shutdown
  dsimp only
  rw [if_pos rfl]
  apply foldSteps_pres _ (fun st =>
    st.sessionEventReceiver = { s.sessionEventReceiver with closed := true } ∧
    st.serviceTaskReceiver = { s.serviceTaskReceiver with closed := true } ∧
    st.serviceProtoHandles = [] ∧ st.sessionProtoHandles = [] ∧ st.shutdown = s.shutdown)
  · intro st x h
    refine ⟨?_, ?_, ?_, ?_, ?_⟩
    · rw [session_close_eq]
      exact h.1
    · rw [session_close_eq]
      exact h.2.1
    · rw [session_close_eq]
      exact h.2.2.1
    · rw [session_close_internal_sph, h.2.2.2.1]
      rfl
    · rw [session_close_eq]
      exact h.2.2.2.2
  · exact ⟨rfl, rfl, rfl, rfl, rfl⟩

/-- A quick handle_shutdown closes every session: the sessions map is
empty afterwards. -/
theorem handle_shutdown_true_sessions (s : ServiceState) (o : Oracle) :
    (handle_shutdown s o true).1.sessions = [] := by
  unfold handle_shutdown
  dsimp only
  rw [if_pos rfl]
  rw [close_internal_fold_sessions]
  dsimp only
  rw [List.filter_eq_nil_iff]
  intro e he
  simp only [decide_eq_true_eq, Decidable.not_not]
  exact List.mem_map_of_mem (fun q => q.1) he

/-- Every recorded listen gets a ListenClose user event from
handle_shutdown. -/
theorem handle_shutdown_listen_events (s : ServiceState) (o : Oracle) (quick : Bool)
    (a : Multiaddr) (ha : a ∈ s.listens) :
    Effect.handleEvent (.listenClose a) ∈ (handle_shutdown s o quick).2 := by
  unfold handle_shutdown
  dsimp only
  split <;>
  · apply foldSteps_mem_trace
    exact List.mem_map_of_mem _ ha

/-- C7: the Shutdown task.  Handling Shutdown(quick) enters
pre-shutdown, emits ListenClose for every recorded listen and clears
the listen set, clears the port-mapping registrations, empties the
future-task queue; when quick both receivers are closed, the handler
buffer maps are cleared and every session is closed internally with a
SessionClose user event; when not quick every session instead gets a
High-priority SessionClose pushed into its outbound queue. -/
theorem shutdown_task (s : ServiceState) (o : Oracle) (quick : Bool) (pri : Priority)
    (s2 : ServiceState) (tr2 : Trace)
    (hnodup : (s.sessions.map fun e => e.1).Nodup)
    (hsd : handle_shutdown s o quick = (s2, tr2)) :
    handle_service_task s o (.shutdown quick) pri =
      (s2, .taskHandled (.shutdown quick) pri :: tr2) ∧
    s2.state.shutdown = true ∧ s2.listens = [] ∧ s2.igdRegistrations = [] ∧
    s2.futureTaskSender.holding = [] ∧
    (∀ a ∈ s.listens, Effect.handleEvent (.listenClose a) ∈ tr2) ∧
    (quick = true →
      s2.serviceTaskReceiver.closed = true ∧ s2.sessionEventReceiver.closed = true ∧
      s2.serviceProtoHandles = [] ∧ s2.sessionProtoHandles = [] ∧ s2.sessions = [] ∧
      ∀ p ∈ s.sessions, Effect.handleEvent (.sessionClose p.2.inner) ∈ tr2) ∧
    (quick = false →
      ∀ p ∈ s.sessions, ∃ c2, mapLookup p.1 s2.sessions = some c2 ∧
        (Priority.high, SessionEvent.sessionClose p.1) ∈
          c2.buffer.holding ++ c2.buffer.sent) := by
  have hcore := handle_shutdown_core s o quick
  rw [hsd] at hcore
  refine ⟨?_, ?_, hcore.2.1, hcore.2.2.1, ?_, ?_, ?_, ?_⟩
  · unfold handle_service_task handle_service_task_core
    dsimp only
    rw [hsd]
  · rw [hcore.1]
    rfl
  · rw [hcore.2.2.2]
    rfl
  · intro a ha
    have := handle_shutdown_listen_events s o quick a ha
    rw [hsd] at this
    exact this
  · intro hq
    subst hq
    have hrec := handle_shutdown_true_receivers s o
    have hsess := handle_shutdown_true_sessions s o
    rw [hsd] at hrec hsess
    refine ⟨by rw [hrec.2.1], by rw [hrec.1], hrec.2.2.1, hrec.2.2.2.1, hsess, ?_⟩
    intro p hp
    have := close_internal_fold_events o s.sessions
      ({ s with state := s.state.preShutdown, listens := [], igdRegistrations := [],
                futureTaskSender := s.futureTaskSender.clear,
                serviceTaskReceiver := { s.serviceTaskReceiver with closed := true },
                sessionEventReceiver := { s.sessionEventReceiver with closed := true },
                serviceProtoHandles := [], sessionProtoHandles := [] })
      (s.listens.map fun a => .handleEvent (.listenClose a)) rfl hnodup p hp
    have heq : handle_shutdown s o true =
        foldSteps (fun st i => session_close st o i .internal)
          ({ s with state := s.state.preShutdown, listens := [], igdRegistrations := [],
                    futureTaskSender := s.futureTaskSender.clear,
                    serviceTaskReceiver := { s.serviceTaskReceiver with closed := true },
                    sessionEventReceiver := { s.sessionEventReceiver with closed := true },
                    serviceProtoHandles := [], sessionProtoHandles := [] },
            s.listens.map fun a => .handleEvent (.listenClose a))
          (s.sessions.map fun e => e.1) := rfl
    rw [← heq, hsd] at this
    exact this
  · intro hq
    subst hq
    intro p hp
    have hlp : mapLookup p.1 s.sessions = some p.2 :=
      mapLookup_of_mem_nodup s.sessions hnodup p hp
    have hlp2 : mapLookup p.1
        ({ s with state := s.state.preShutdown, listens := [], igdRegistrations := [],
                  futureTaskSender := s.futureTaskSender.clear } : ServiceState).sessions =
        some p.2 := hlp
    have hmem := close_external_fold o (s.sessions.map fun e => e.1)
      ({ s with state := s.state.preShutdown, listens := [], igdRegistrations := [],
                futureTaskSender := s.futureTaskSender.clear })
      (s.listens.map fun a => .handleEvent (.listenClose a)) p.1 p.2 hlp2
      (Or.inl (List.mem_map_of_mem _ hp))
    have heq : handle_shutdown s o false =
        foldSteps (fun st i => session_close st o i .external)
          ({ s with state := s.state.preShutdown, listens := [], igdRegistrations := [],
                    futureTaskSender := s.futureTaskSender.clear },
            s.listens.map fun a => .handleEvent (.listenClose a))
          (s.sessions.map fun e => e.1) := rfl
    rw [← heq, hsd] at hmem
    exact hmem

/-- A state with one listen and one session, used by the C7 witness. -/
def c7S : ServiceState :=
  { base with listens := [[.other 1]], igdRegistrations := [[.other 1]],
              sessions := [(7, ctl7)] }

/-- Witness for C7 at a concrete graceful shutdown. -/
theorem shutdown_task_witness :
    (c7S.sessions.map fun e => e.1).Nodup ∧
    (handle_shutdown c7S oracle0 false).1.state.shutdown = true ∧
    (handle_shutdown c7S oracle0 false).1.listens = [] ∧
    ∀ p ∈ c7S.sessions, ∃ c2,
      mapLookup p.1 (handle_shutdown c7S oracle0 false).1.sessions = some c2 ∧
      (Priority.high, SessionEvent.sessionClose p.1) ∈
        c2.buffer.holding ++ c2.buffer.sent :=
  ⟨by decide,
   (shutdown_task c7S oracle0 false .high _ _ (by decide) rfl).2.1,
   (shutdown_task c7S oracle0 false .high _ _ (by decide) rfl).2.2.1,
   (shutdown_task c7S oracle0 false .high _ _ (by decide) rfl).2.2.2.2.2.2.2 rfl⟩

/-- A trace that contains no record of a Shutdown task being
processed. -/
def NoShutdownMarker (tr : Trace) : Prop :=
  ∀ (q : Bool) (pr : Priority), Effect.taskHandled (.shutdown q) pr ∉ tr

/-- Appending traces preserves the absence of shutdown markers. -/
theorem NoShutdownMarker.append {t1 t2 : Trace} (h1 : NoShutdownMarker t1)
    (h2 : NoShutdownMarker t2) : NoShutdownMarker (t1 ++ t2) := by
  intro q pr h
  rcases List.mem_append.mp h with h | h
  · exact h1 q pr h
  · exact h2 q pr h

/-- The empty trace has no shutdown marker. -/
theorem noShutdownMarker_nil : NoShutdownMarker [] := by
  intro q pr h
  cases h

/-- try_send on a non-empty buffer with a dead receiver reports
Disconnect. -/
theorem trySend_disconnect {α : Type} (c : ChannelCond) (b : Buffer α)
    (hb : b.holding ≠ []) (hc : c.alive = false) :
    (Buffer.trySend c b).1 = .disconnect := by
  unfold Buffer.trySend
  rw [if_neg (by simpa using hb), if_pos (by rw [hc]; rfl)]

/-- try_send on a live channel never reports Disconnect. -/
theorem trySend_alive {α : Type} (c : ChannelCond) (b : Buffer α) (hc : c.alive = true) :
    (Buffer.trySend c b).1 ≠ .disconnect := by
  unfold Buffer.trySend
  split
  · simp
  · rw [if_neg (by rw [hc]; simp)]
    dsimp only
    split <;> simp

/-- The flush of the per-session buffers emits only SessionBlocked
errors. -/
theorem distribute_to_session_noMark (s : ServiceState) (o : Oracle) :
    NoShutdownMarker (distribute_to_session s o).2 := by
  unfold distribute_to_session
  split
  · exact noShutdownMarker_nil
  · intro q pr hmem
    dsimp only at hmem
    rw [List.mem_flatten] at hmem
    obtain ⟨l, hl, hx⟩ := hmem
    rw [List.mem_map] at hl
    obtain ⟨e, _, rfl⟩ := hl
    split at hx
    · simp at hx
    · cases hx

/-- The classification trace of one service-level handler holds no
shutdown marker. -/
theorem classify_service_noMark (o : Oracle) (e : ProtocolId × Buffer ServiceProtocolEvent) :
    NoShutdownMarker (classify_service o e) := by
  intro q pr h
  unfold classify_service at h
  split at h <;> simp at h

/-- The classification trace of one session-level handler holds no
shutdown marker. -/
theorem classify_session_noMark (o : Oracle)
    (e : (SessionId × ProtocolId) × Buffer SessionProtocolEvent) :
    NoShutdownMarker (classify_session o e) := by
  intro q pr h
  unfold classify_session at h
  split at h <;> simp at h

/-- The concatenated classification traces hold no shutdown marker. -/
theorem classify_flatten_noMark (s : ServiceState) (o : Oracle) :
    NoShutdownMarker ((s.serviceProtoHandles.map (classify_service o)).flatten ++
      (s.sessionProtoHandles.map (classify_session o)).flatten) := by
  intro q pr h
  rcases List.mem_append.mp h with h | h <;>
  · rw [List.mem_flatten] at h
    obtain ⟨l, hl, hx⟩ := h
    rw [List.mem_map] at hl
    obtain ⟨e, _, rfl⟩ := hl
    first
      | exact classify_service_noMark o e q pr hx
      | exact classify_session_noMark o e q pr hx

/-- With every handler channel alive, distribute_to_user_level
classifies no handler as Disconnect: the service state keeps its State
record and no Shutdown task is processed. -/
theorem distribute_to_user_level_alive (s : ServiceState) (o : Oracle)
    (h1 : ∀ pid, (o.serviceProtoChan pid).alive = true)
    (h2 : ∀ sid pid, (o.sessionProtoChan sid pid).alive = true) :
    (distribute_to_user_level s o).1.state = s.state ∧
    NoShutdownMarker (distribute_to_user_level s o).2 := by
  unfold distribute_to_user_level
  split
  · exact ⟨rfl, noShutdownMarker_nil⟩
  · dsimp only
    have ha : (s.serviceProtoHandles.any fun e =>
        decide ((Buffer.trySend (o.serviceProtoChan e.1) e.2).1 = SendResult.disconnect)) =
        false := by
      rw [List.any_eq_false]
      intro e _
      simpa using trySend_alive _ _ (h1 e.1)
    have hb : (s.sessionProtoHandles.any fun e =>
        decide ((Buffer.trySend (o.sessionProtoChan e.1.1 e.1.2) e.2).1 =
          SendResult.disconnect)) = false := by
      rw [List.any_eq_false]
      intro e _
      simpa using trySend_alive _ _ (h2 e.1.1 e.1.2)
    rw [ha, hb]
    exact ⟨rfl, classify_flatten_noMark s o⟩

/-- session_close keeps the State record and processes no Shutdown
task. -/
theorem session_close_state_noMark (s : ServiceState) (o : Oracle) (id : SessionId)
    (src : Source) :
    (session_close s o id src).1.state = s.state ∧
    NoShutdownMarker (session_close s o id src).2 := by
  constructor
  · rw [session_close_eq]
  · cases src with
    | external =>
      unfold session_close
      dsimp only
      split
      · exact distribute_to_session_noMark _ o
      · exact noShutdownMarker_nil
    | internal =>
      unfold session_close
      dsimp only
      split
      · intro q pr h
        simp at h
      · exact noShutdownMarker_nil

/-- session_handles_open keeps the State record. -/
theorem session_handles_open_state (s : ServiceState) (id : SessionId) :
    (session_handles_open s id).state = s.state := by
  unfold session_handles_open
  generalize s.protocolConfigs = l
  induction l generalizing s with
  | nil => rfl
  | cons e t ih =>
    simp only [List.foldl_cons]
    rw [ih]
    split <;> rfl

/-- The substream pre-open trace holds no shutdown marker. -/
theorem open_streams_trace_noMark (s : ServiceState) (ty : SessionType)
    (target : TargetProtocol) : NoShutdownMarker (open_streams_trace s ty target) := by
  intro q pr h
  unfold open_streams_trace at h
  split at h
  · cases target with
    | all =>
      rw [List.mem_map] at h
      obtain ⟨e, _, he⟩ := h
      simp at he
    | single pid =>
      dsimp only at h
      split at h <;> simp at h
    | multi pids =>
      dsimp only at h
      rw [List.mem_flatten] at h
      obtain ⟨l, hl, hx⟩ := h
      rw [List.mem_map] at hl
      obtain ⟨e, _, rfl⟩ := hl
      split at hx <;> simp at hx
  · cases h

/-- A successful open_rest keeps the State record and processes no
Shutdown task. -/
theorem open_rest_facts (s : ServiceState) (pk : Option PublicKey) (addr : Multiaddr)
    (ty : SessionType) (target : TargetProtocol) (s1 : ServiceState) (tr : Trace)
    (h : open_rest s pk addr ty target = .ok (s1, tr)) :
    s1.state = s.state ∧ NoShutdownMarker tr := by
  unfold open_rest at h
  cases hg : genAux (fun n => mapContains n s.sessions) s.nextSession idW with
  | none =>
    rw [hg] at h
    exact absurd h (by simp)
  | some nid =>
    rw [hg] at h
    simp only [Except.ok.injEq, Prod.mk.injEq] at h
    obtain ⟨h1, h2⟩ := h
    constructor
    · rw [← h1, session_handles_open_state]
    · rw [← h2]
      refine NoShutdownMarker.append (open_streams_trace_noMark _ _ _) ?_
      intro q pr hm
      simp at hm

/-- A successful session_open keeps the State record and processes no
Shutdown task. -/
theorem session_open_facts (s : ServiceState) (handle : Nat) (pk : Option PublicKey)
    (addr : Multiaddr) (ty : SessionType) (la : Option Multiaddr) (s1 : ServiceState)
    (tr : Trace) (h : session_open s handle pk addr ty la = .ok (s1, tr)) :
    s1.state = s.state ∧ NoShutdownMarker tr := by
  have hrest : ∀ (s0 : ServiceState) (pk2 : Option PublicKey) (a2 : Multiaddr)
      (t2 : TargetProtocol), s0.state = s.state →
      open_rest s0 pk2 a2 ty t2 = .ok (s1, tr) → s1.state = s.state ∧ NoShutdownMarker tr := by
    intro s0 pk2 a2 t2 hst hO
    obtain ⟨h1, h2⟩ := open_rest_facts s0 pk2 a2 ty t2 s1 tr hO
    exact ⟨h1.trans hst, h2⟩
  unfold session_open at h
  cases pk with
  | none =>
    dsimp only at h
    refine hrest _ _ _ _ ?_ h
    rfl
  | some key =>
    dsimp only at h
    cases hfd : findDup key s.sessions with
    | some fc =>
      rw [hfd] at h
      dsimp only at h
      by_cases hty : ty.isOutbound = true
      · rw [if_pos hty] at h
        simp only [Except.ok.injEq, Prod.mk.injEq] at h
        obtain ⟨h1, h2⟩ := h
        refine ⟨by rw [← h1], ?_⟩
        intro q pr hm
        rw [← h2] at hm
        simp at hm
      · rw [if_neg hty] at h
        cases la with
        | none => cases h
        | some a =>
          simp only [Except.ok.injEq, Prod.mk.injEq] at h
          obtain ⟨h1, h2⟩ := h
          refine ⟨by rw [← h1], ?_⟩
          intro q pr hm
          rw [← h2] at hm
          simp at hm
    | none =>
      rw [hfd] at h
      dsimp only at h
      cases hext : extract_peer_id addr with
      | some pid =>
        rw [hext] at h
        dsimp only at h
        by_cases hpid : key.pid ≠ pid
        · rw [if_pos hpid] at h
          simp only [Except.ok.injEq, Prod.mk.injEq] at h
          obtain ⟨h1, h2⟩ := h
          refine ⟨by rw [← h1], ?_⟩
          intro q pr hm
          rw [← h2] at hm
          simp at hm
        · rw [if_neg hpid] at h
          refine hrest _ _ _ _ ?_ h
          rfl
      | none =>
        rw [hext] at h
        dsimp only at h
        refine hrest _ _ _ _ ?_ h
        rfl

/-- protocol_open keeps the State record and processes no Shutdown
task. -/
theorem protocol_open_facts (s : ServiceState) (o : Oracle) (id : SessionId)
    (protoId : ProtocolId) (version : Nat) (src : Source) :
    (protocol_open s o id protoId version src).1.state = s.state ∧
    NoShutdownMarker (protocol_open s o id protoId version src).2 := by
  cases src with
  | external =>
    unfold protocol_open
    dsimp only
    split
    · constructor
      · rw [distribute_to_session_eq]
      · exact distribute_to_session_noMark _ o
    · exact ⟨rfl, noShutdownMarker_nil⟩
  | internal =>
    unfold protocol_open
    dsimp only
    split
    · split
      · refine ⟨rfl, ?_⟩
        intro q pr h
        simp at h
      · exact ⟨rfl, noShutdownMarker_nil⟩
    · exact ⟨rfl, noShutdownMarker_nil⟩

/-- protocol_close keeps the State record and processes no Shutdown
task. -/
theorem protocol_close_facts (s : ServiceState) (o : Oracle) (id : SessionId)
    (protoId : ProtocolId) (src : Source) :
    (protocol_close s o id protoId src).1.state = s.state ∧
    NoShutdownMarker (protocol_close s o id protoId src).2 := by
  cases src with
  | external =>
    unfold protocol_close
    dsimp only
    split
    · constructor
      · rw [distribute_to_session_eq]
      · exact distribute_to_session_noMark _ o
    · exact ⟨rfl, noShutdownMarker_nil⟩
  | internal =>
    unfold protocol_close
    dsimp only
    refine ⟨rfl, ?_⟩
    intro q pr h
    split at h
    · split at h
      · simp at h
      · cases h
    · cases h

/-- protocol_message keeps the state and processes no Shutdown task. -/
theorem protocol_message_facts (s : ServiceState) (id : SessionId) (protoId : ProtocolId)
    (data : Bytes) :
    (protocol_message s id protoId data).1 = s ∧
    NoShutdownMarker (protocol_message s id protoId data).2 := by
  refine ⟨protocol_message_state s id protoId data, ?_⟩
  intro q pr h
  unfold protocol_message at h
  split at h
  · split at h
    · simp at h
    · cases h
  · cases h

/-- With alive handler channels, try_update_listens keeps the State
record and processes no Shutdown task. -/
theorem try_update_listens_alive (s : ServiceState) (o : Oracle)
    (h1 : ∀ pid, (o.serviceProtoChan pid).alive = true)
    (h2 : ∀ sid pid, (o.sessionProtoChan sid pid).alive = true) :
    (try_update_listens s o).1.state = s.state ∧
    NoShutdownMarker (try_update_listens s o).2 := by
  unfold try_update_listens
  split
  · exact ⟨rfl, noShutdownMarker_nil⟩
  · exact distribute_to_user_level_alive _ o h1 h2

/-- C9: fatal handler death.  When flushing classifies a handler
buffer as Disconnect, the AbnormallyClosed ProtocolHandleError is
surfaced via handle_error and a Shutdown(false) task is processed at
High priority in the same round (stated for both handler classes);
a ProtocolHandleError session event likewise surfaces the error and
processes Shutdown(false) at High; and no other session event kind
triggers a service-wide shutdown. -/
theorem fatal_handler_death (s : ServiceState) (o : Oracle) :
    (s.shutdown = false →
      (∀ pid b, (pid, b) ∈ s.serviceProtoHandles → b.holding ≠ [] →
        (o.serviceProtoChan pid).alive = false →
        Effect.handleError (.protocolHandleError pid (.abnormallyClosed none)) ∈
          (distribute_to_user_level s o).2 ∧
        Effect.taskHandled (.shutdown false) .high ∈ (distribute_to_user_level s o).2) ∧
      (∀ sid pid b, ((sid, pid), b) ∈ s.sessionProtoHandles → b.holding ≠ [] →
        (o.sessionProtoChan sid pid).alive = false →
        Effect.handleError (.protocolHandleError pid (.abnormallyClosed (some sid))) ∈
          (distribute_to_user_level s o).2 ∧
        Effect.taskHandled (.shutdown false) .high ∈ (distribute_to_user_level s o).2)) ∧
    (∀ err pid, handle_session_event s o (.protocolHandleError err pid) =
      .ok ((handle_shutdown s o false).1,
           .handleError (.protocolHandleError pid err) ::
             .taskHandled (.shutdown false) .high :: (handle_shutdown s o false).2)) ∧
    (∀ ev : SessionEvent, (∀ e p, ev ≠ .protocolHandleError e p) →
      (∀ pid, (o.serviceProtoChan pid).alive = true) →
      (∀ sid pid, (o.sessionProtoChan sid pid).alive = true) →
      ∀ s1 tr, handle_session_event s o ev = .ok (s1, tr) →
        NoShutdownMarker tr ∧ s1.state.shutdown = s.state.shutdown) := by
  refine ⟨?_, ?_, ?_⟩
  · intro hsd
    constructor
    · intro pid b hmem hne hdead
      unfold distribute_to_user_level
      rw [if_neg (by simp [hsd])]
      dsimp only
      have herr : (s.serviceProtoHandles.any fun e =>
          decide ((Buffer.trySend (o.serviceProtoChan e.1) e.2).1 =
            SendResult.disconnect)) = true :=
        List.any_eq_true.mpr ⟨(pid, b), hmem, by simp [trySend_disconnect _ _ hne hdead]⟩
      rw [herr]
      rw [Bool.true_or, if_pos rfl]
      constructor
      · refine List.mem_append.mpr (Or.inl (List.mem_append.mpr (Or.inl
          (List.mem_append.mpr (Or.inl ?_)))))
        rw [List.mem_flatten]
        refine ⟨classify_service o (pid, b), List.mem_map_of_mem _ hmem, ?_⟩
        unfold classify_service
        rw [trySend_disconnect _ _ hne hdead]
        simp
      · refine List.mem_append.mpr (Or.inl (List.mem_append.mpr (Or.inr ?_)))
        simp
    · intro sid pid b hmem hne hdead
      unfold distribute_to_user_level
      rw [if_neg (by simp [hsd])]
      dsimp only
      have herr : (s.sessionProtoHandles.any fun e =>
          decide ((Buffer.trySend (o.sessionProtoChan e.1.1 e.1.2) e.2).1 =
            SendResult.disconnect)) = true :=
        List.any_eq_true.mpr ⟨((sid, pid), b), hmem,
          by simp [trySend_disconnect _ _ hne hdead]⟩
      rw [herr]
      rw [Bool.or_true, if_pos rfl]
      constructor
      · refine List.mem_append.mpr (Or.inl (List.mem_append.mpr (Or.inl
          (List.mem_append.mpr (Or.inr ?_)))))
        rw [List.mem_flatten]
        refine ⟨classify_session o ((sid, pid), b), List.mem_map_of_mem _ hmem, ?_⟩
        unfold classify_session
        rw [trySend_disconnect _ _ hne hdead]
        simp
      · refine List.mem_append.mpr (Or.inl (List.mem_append.mpr (Or.inr ?_)))
        simp
  · intro err pid
    rfl
  · intro ev hnev h1 h2 s1 tr hok
    cases ev with
    | sessionClose id =>
      simp only [handle_session_event, Except.ok.injEq] at hok
      have hs1 := congrArg Prod.fst hok
      have htr := congrArg Prod.snd hok
      dsimp only at hs1 htr
      rw [← hs1, ← htr]
      obtain ⟨ha, hb⟩ := session_close_state_noMark s o id .internal
      exact ⟨hb, by rw [ha]⟩
    | handshakeSuccess handle publicKey address ty listenAddress =>
      simp only [handle_session_event] at hok
      split at hok <;>
      · split at hok
        · simp only [Except.ok.injEq] at hok
          have hs1 := congrArg Prod.fst hok
          have htr := congrArg Prod.snd hok
          dsimp only at hs1 htr
          rw [← hs1, ← htr]
          exact ⟨noShutdownMarker_nil, rfl⟩
        · obtain ⟨ha, hb⟩ := session_open_facts _ _ _ _ _ _ _ _ hok
          refine ⟨hb, ?_⟩
          simp only [ha, State.decrease]
    | handshakeError ty error address =>
      simp only [handle_session_event] at hok
      split at hok <;>
      · simp only [Except.ok.injEq] at hok
        have hs1 := congrArg Prod.fst hok
        have htr := congrArg Prod.snd hok
        dsimp only at hs1 htr
        rw [← hs1, ← htr]
        refine ⟨?_, rfl⟩
        intro q pr hm
        simp at hm
    | protocolMessage id protoId data =>
      simp only [handle_session_event, Except.ok.injEq] at hok
      have hs1 := congrArg Prod.fst hok
      have htr := congrArg Prod.snd hok
      dsimp only at hs1 htr
      rw [← hs1, ← htr]
      obtain ⟨ha, hb⟩ := protocol_message_facts s id protoId data
      exact ⟨hb, by rw [ha]⟩
    | protocolOpen id protoId version =>
      simp only [handle_session_event, Except.ok.injEq] at hok
      have hs1 := congrArg Prod.fst hok
      have htr := congrArg Prod.snd hok
      dsimp only at hs1 htr
      rw [← hs1, ← htr]
      obtain ⟨ha, hb⟩ := protocol_open_facts s o id protoId version .internal
      exact ⟨hb, by rw [ha]⟩
    | protocolClose id protoId =>
      simp only [handle_session_event, Except.ok.injEq] at hok
      have hs1 := congrArg Prod.fst hok
      have htr := congrArg Prod.snd hok
      dsimp only at hs1 htr
      rw [← hs1, ← htr]
      obtain ⟨ha, hb⟩ := protocol_close_facts s o id protoId .internal
      exact ⟨hb, by rw [ha]⟩
    | protocolSelectError id protoName =>
      simp only [handle_session_event] at hok
      split at hok <;>
      · simp only [Except.ok.injEq] at hok
        have hs1 := congrArg Prod.fst hok
        have htr := congrArg Prod.snd hok
        dsimp only at hs1 htr
        rw [← hs1, ← htr]
        refine ⟨?_, rfl⟩
        intro q pr hm
        simp at hm
    | protocolError id protoId error =>
      simp only [handle_session_event, Except.ok.injEq] at hok
      have hs1 := congrArg Prod.fst hok
      have htr := congrArg Prod.snd hok
      dsimp only at hs1 htr
      rw [← hs1, ← htr]
      refine ⟨?_, rfl⟩
      intro q pr hm
      simp at hm
    | dialError address error =>
      simp only [handle_session_event, Except.ok.injEq] at hok
      have hs1 := congrArg Prod.fst hok
      have htr := congrArg Prod.snd hok
      dsimp only at hs1 htr
      rw [← hs1, ← htr]
      refine ⟨?_, rfl⟩
      intro q pr hm
      simp at hm
    | listenError address error =>
      simp only [handle_session_event] at hok
      split at hok <;>
      · simp only [Except.ok.injEq] at hok
        have hs1 := congrArg Prod.fst hok
        have htr := congrArg Prod.snd hok
        dsimp only at hs1 htr
        rw [← hs1, ← htr]
        refine ⟨?_, rfl⟩
        intro q pr hm
        simp at hm
    | sessionTimeout id =>
      simp only [handle_session_event] at hok
      split at hok <;>
      · simp only [Except.ok.injEq] at hok
        have hs1 := congrArg Prod.fst hok
        have htr := congrArg Prod.snd hok
        dsimp only at hs1 htr
        rw [← hs1, ← htr]
        refine ⟨?_, rfl⟩
        intro q pr hm
        simp at hm
    | muxerError id error =>
      simp only [handle_session_event] at hok
      split at hok <;>
      · simp only [Except.ok.injEq] at hok
        have hs1 := congrArg Prod.fst hok
        have htr := congrArg Prod.snd hok
        dsimp only at hs1 htr
        rw [← hs1, ← htr]
        refine ⟨?_, rfl⟩
        intro q pr hm
        simp at hm
    | listenStart listenAddress incoming =>
      simp only [handle_session_event, Except.ok.injEq] at hok
      have hs1 := congrArg Prod.fst hok
      have htr := congrArg Prod.snd hok
      dsimp only at hs1 htr
      rw [← hs1, ← htr]
      obtain ⟨ha, hb⟩ := try_update_listens_alive
        ({ s with listens := setInsert listenAddress s.listens,
                  state := s.state.decrease }) o h1 h2
      constructor
      · refine NoShutdownMarker.append (NoShutdownMarker.append ?_ hb) ?_
        · intro q pr hm
          simp at hm
        · intro q pr hm
          simp at hm
      · rw [ha]
        rfl
    | protocolHandleError error protoId =>
      exact absurd rfl (hnev error protoId)

/-- A state with one pending service-level handler event, whose handler
channel the oracle below reports dead. -/
def c9S : ServiceState :=
  { base with serviceProtoHandles := [(1, { holding := [.init], sent := [] })] }

/-- An oracle whose service-level handler channels are all dead. -/
def c9O : Oracle :=
  { oracle0 with serviceProtoChan := fun _ => { alive := false, capacity := 16 } }

/-- Witness for C9 at a concrete dead service-level handler. -/
theorem fatal_handler_death_witness :
    Effect.handleError (.protocolHandleError 1 (.abnormallyClosed none)) ∈
      (distribute_to_user_level c9S c9O).2 ∧
    Effect.taskHandled (.shutdown false) .high ∈ (distribute_to_user_level c9S c9O).2 :=
  ((fatal_handler_death c9S c9O).1 rfl).1 1 { holding := [.init], sent := [] }
    (by simp [c9S]) (by simp) rfl

/-! Frame lemmas through one poll round, towards the termination-check
and unreachable-branch theorems. -/

/-- try_send on an empty buffer reports Ok and leaves the buffer. -/
theorem trySend_empty {α : Type} (c : ChannelCond) (b : Buffer α)
    (h : b.holding = []) : Buffer.trySend c b = (.ok, b) := by
  unfold Buffer.trySend
  rw [if_pos (by rw [h]; rfl)]

/-- handle_shutdown never writes the global shutdown flag. -/
theorem handle_shutdown_flag (s : ServiceState) (o : Oracle) (quick : Bool) :
    (handle_shutdown s o quick).1.shutdown = s.shutdown := by
  cases quick with
  | true => exact (handle_shutdown_true_receivers s o).2.2.2.2
  | false => exact (handle_shutdown_false_untouched s o).shutdown

/-- A quick shutdown establishes the termination condition. -/
theorem handle_shutdown_true_done (s : ServiceState) (o : Oracle) :
    termination_check (handle_shutdown s o true).1 = true := by
  obtain ⟨h1, h2, h3, h4⟩ := handle_shutdown_core s o true
  unfold termination_check
  rw [h1, h2, h4, handle_shutdown_true_sessions s o]
  simp [State.preShutdown, State.isShutdown, Buffer.clear]

/-- The termination condition survives wait_handle_poll. -/
theorem termination_check_wait (s : ServiceState) (o : Oracle) :
    termination_check (wait_handle_poll s o).2.1 = termination_check s := rfl

/-- The termination condition ignores the global shutdown flag. -/
theorem termination_check_flag (s : ServiceState) :
    termination_check { s with shutdown := true } = termination_check s := rfl

/-- flush_buffer leaves the flagged fields untouched. -/
theorem flush_buffer_untouched (s : ServiceState) (o : Oracle) :
    Untouched s (flush_buffer s o).1 := by
  unfold flush_buffer
  dsimp only
  split
  · split
    · exact (distribute_to_session_untouched s o).trans (distribute_to_user_level_untouched _ o)
    · exact distribute_to_session_untouched s o
  · split
    · exact Untouched.trans (untouched_refl s) (distribute_to_user_level_untouched _ o)
    · exact untouched_refl s

/-- handle_session_event leaves the flagged fields untouched. -/
theorem handle_session_event_untouched (s : ServiceState) (o : Oracle) (ev : SessionEvent)
    (s1 : ServiceState) (tr : Trace)
    (hok : handle_session_event s o ev = .ok (s1, tr)) : Untouched s s1 := by
  cases ev with
  | sessionClose id =>
    simp only [handle_session_event, Except.ok.injEq] at hok
    have hs1 := congrArg Prod.fst hok
    dsimp only at hs1
    rw [← hs1]
    exact session_close_untouched s o id .internal
  | handshakeSuccess handle publicKey address ty listenAddress =>
    simp only [handle_session_event] at hok
    split at hok <;>
    · split at hok
      · simp only [Except.ok.injEq] at hok
        have hs1 := congrArg Prod.fst hok
        dsimp only at hs1
        rw [← hs1]
        exact ⟨rfl, rfl, rfl⟩
      · refine Untouched.trans ?_ (session_open_untouched _ _ _ _ _ _ _ _ hok)
        exact ⟨rfl, rfl, rfl⟩
  | handshakeError ty error address =>
    simp only [handle_session_event] at hok
    split at hok <;>
    · simp only [Except.ok.injEq] at hok
      have hs1 := congrArg Prod.fst hok
      dsimp only at hs1
      rw [← hs1]
      exact ⟨rfl, rfl, rfl⟩
  | protocolMessage id protoId data =>
    simp only [handle_session_event, Except.ok.injEq] at hok
    have hs1 := congrArg Prod.fst hok
    dsimp only at hs1
    rw [← hs1, protocol_message_state]
    exact untouched_refl s
  | protocolOpen id protoId version =>
    simp only [handle_session_event, Except.ok.injEq] at hok
    have hs1 := congrArg Prod.fst hok
    dsimp only at hs1
    rw [← hs1]
    exact protocol_open_untouched s o id protoId version .internal
  | protocolClose id protoId =>
    simp only [handle_session_event, Except.ok.injEq] at hok
    have hs1 := congrArg Prod.fst hok
    dsimp only at hs1
    rw [← hs1]
    exact protocol_close_untouched s o id protoId .internal
  | protocolSelectError id protoName =>
    simp only [handle_session_event] at hok
    split at hok <;>
    · simp only [Except.ok.injEq] at hok
      have hs1 := congrArg Prod.fst hok
      dsimp only at hs1
      rw [← hs1]
      exact untouched_refl s
  | protocolError id protoId error =>
    simp only [handle_session_event, Except.ok.injEq] at hok
    have hs1 := congrArg Prod.fst hok
    dsimp only at hs1
    rw [← hs1]
    exact untouched_refl s
  | dialError address error =>
    simp only [handle_session_event, Except.ok.injEq] at hok
    have hs1 := congrArg Prod.fst hok
    dsimp only at hs1
    rw [← hs1]
    exact ⟨rfl, rfl, rfl⟩
  | listenError address error =>
    simp only [handle_session_event] at hok
    split at hok <;>
    · simp only [Except.ok.injEq] at hok
      have hs1 := congrArg Prod.fst hok
      dsimp only at hs1
      rw [← hs1]
      exact ⟨rfl, rfl, rfl⟩
  | sessionTimeout id =>
    simp only [handle_session_event] at hok
    split at hok <;>
    · simp only [Except.ok.injEq] at hok
      have hs1 := congrArg Prod.fst hok
      dsimp only at hs1
      rw [← hs1]
      exact untouched_refl s
  | muxerError id error =>
    simp only [handle_session_event] at hok
    split at hok <;>
    · simp only [Except.ok.injEq] at hok
      have hs1 := congrArg Prod.fst hok
      dsimp only at hs1
      rw [← hs1]
      exact untouched_refl s
  | listenStart listenAddress incoming =>
    simp only [handle_session_event, Except.ok.injEq] at hok
    have hs1 := congrArg Prod.fst hok
    dsimp only at hs1
    rw [← hs1]
    have u1 : Untouched s { s with listens := setInsert listenAddress s.listens, state := s.state.decrease } := ⟨rfl, rfl, rfl⟩
    have u2 := try_update_listens_untouched
      { s with listens := setInsert listenAddress s.listens, state := s.state.decrease } o
    exact Untouched.trans (u1.trans u2) ⟨rfl, rfl, rfl⟩
  | protocolHandleError error protoId =>
    simp only [handle_session_event, Except.ok.injEq] at hok
    have hs1 := congrArg Prod.fst hok
    dsimp only at hs1
    rw [← hs1]
    exact handle_shutdown_false_untouched s o

/-- A successful session_poll preserves the global flag and whether the
session-event receiver is closed. -/
theorem session_poll_frame (s : ServiceState) (o : Oracle) (p : PollR) (s3 : ServiceState)
    (tr : Trace) (hok : session_poll s o = .ok (p, s3, tr)) :
    s3.shutdown = s.shutdown ∧
    s3.sessionEventReceiver.closed = s.sessionEventReceiver.closed := by
  unfold session_poll at hok
  dsimp only at hok
  split at hok
  · simp only [Except.ok.injEq, Prod.mk.injEq] at hok
    obtain ⟨-, h2, -⟩ := hok
    rw [← h2]
    exact ⟨rfl, rfl⟩
  · split at hok
    · simp only [Except.ok.injEq, Prod.mk.injEq] at hok
      obtain ⟨-, h2, -⟩ := hok
      rw [← h2]
      exact ⟨rfl, rfl⟩
    · split at hok
      · split at hok
        · rename_i s2 tr2 heq
          simp only [Except.ok.injEq, Prod.mk.injEq] at hok
          obtain ⟨-, h2, -⟩ := hok
          rw [← h2]
          have u := handle_session_event_untouched _ o _ _ _ heq
          have hc := congrArg EventReceiver.closed u.receiver
          exact ⟨u.shutdown, hc⟩
        · exact absurd hok (by simp)
      · split at hok
        · exact absurd hok (by simp)
        · simp only [Except.ok.injEq, Prod.mk.injEq] at hok
          obtain ⟨-, h2, -⟩ := hok
          rw [← h2]
          exact ⟨rfl, rfl⟩

/-- One handled user task preserves the global flag, and either leaves
the session-event receiver alone or (quick shutdown) establishes the
termination condition. -/
theorem handle_service_task_frame (s : ServiceState) (o : Oracle) (t : ServiceTask)
    (p : Priority) :
    (handle_service_task s o t p).1.shutdown = s.shutdown ∧
    ((handle_service_task s o t p).1.sessionEventReceiver = s.sessionEventReceiver ∨
      termination_check (handle_service_task s o t p).1 = true) := by
  have hofU : ∀ s2 : ServiceState, Untouched s s2 →
      s2.shutdown = s.shutdown ∧
      (s2.sessionEventReceiver = s.sessionEventReceiver ∨ termination_check s2 = true) :=
    fun s2 u => ⟨u.shutdown, Or.inl u.receiver⟩
  cases t with
  | protocolMessage target protoId data =>
    exact hofU _ (handle_message_untouched s o target protoId p data)
  | dial address target =>
    unfold handle_service_task handle_service_task_core
    dsimp only
    split
    · exact ⟨rfl, Or.inl rfl⟩
    · split <;> exact ⟨rfl, Or.inl rfl⟩
  | listen address =>
    unfold handle_service_task handle_service_task_core
    dsimp only
    split
    · exact ⟨rfl, Or.inl rfl⟩
    · split <;> exact ⟨rfl, Or.inl rfl⟩
  | disconnect sessionId =>
    exact hofU _ (session_close_untouched s o sessionId .external)
  | futureTask n =>
    exact ⟨rfl, Or.inl rfl⟩
  | setProtocolNotify protoId interval token =>
    unfold handle_service_task handle_service_task_core
    dsimp only
    split
    · refine hofU _ (Untouched.trans ?_ (distribute_to_user_level_untouched _ o))
      exact ⟨rfl, rfl, rfl⟩
    · exact ⟨rfl, Or.inl rfl⟩
  | removeProtocolNotify protoId token =>
    unfold handle_service_task handle_service_task_core
    dsimp only
    split
    · refine hofU _ (Untouched.trans ?_ (distribute_to_user_level_untouched _ o))
      exact ⟨rfl, rfl, rfl⟩
    · exact ⟨rfl, Or.inl rfl⟩
  | setProtocolSessionNotify sessionId protoId interval token =>
    unfold handle_service_task handle_service_task_core
    dsimp only
    split
    · refine hofU _ (Untouched.trans ?_ (distribute_to_user_level_untouched _ o))
      exact ⟨rfl, rfl, rfl⟩
    · exact ⟨rfl, Or.inl rfl⟩
  | removeProtocolSessionNotify sessionId protoId token =>
    unfold handle_service_task handle_service_task_core
    dsimp only
    split
    · refine hofU _ (Untouched.trans ?_ (distribute_to_user_level_untouched _ o))
      exact ⟨rfl, rfl, rfl⟩
    · exact ⟨rfl, Or.inl rfl⟩
  | protocolOpen sessionId target =>
    unfold handle_service_task handle_service_task_core
    dsimp only
    cases target with
    | all =>
      dsimp only
      have h := foldSteps_pres (fun st id => protocol_open st o sessionId id 0 .external)
        (fun st => st.shutdown = s.shutdown ∧ st.sessionEventReceiver = s.sessionEventReceiver)
        (fun st x hx =>
          ⟨(protocol_open_untouched st o sessionId x 0 .external).shutdown.trans hx.1,
           (protocol_open_untouched st o sessionId x 0 .external).receiver.trans hx.2⟩)
        (s.protocolConfigs.map fun e => e.1) (s, []) ⟨rfl, rfl⟩
      exact ⟨h.1, Or.inl h.2⟩
    | single id =>
      exact hofU _ (protocol_open_untouched s o sessionId id 0 .external)
    | multi ids =>
      dsimp only
      have h := foldSteps_pres (fun st id => protocol_open st o sessionId id 0 .external)
        (fun st => st.shutdown = s.shutdown ∧ st.sessionEventReceiver = s.sessionEventReceiver)
        (fun st x hx =>
          ⟨(protocol_open_untouched st o sessionId x 0 .external).shutdown.trans hx.1,
           (protocol_open_untouched st o sessionId x 0 .external).receiver.trans hx.2⟩)
        ids (s, []) ⟨rfl, rfl⟩
      exact ⟨h.1, Or.inl h.2⟩
  | protocolClose sessionId protoId =>
    exact hofU _ (protocol_close_untouched s o sessionId protoId .external)
  | shutdown quick =>
    cases quick with
    | true =>
      exact ⟨(handle_shutdown_true_receivers s o).2.2.2.2,
             Or.inr (handle_shutdown_true_done s o)⟩
    | false =>
      exact hofU _ (handle_shutdown_false_untouched s o)

/-- One user-task poll preserves the global flag, and either leaves the
session-event receiver alone or establishes the termination condition. -/
theorem user_task_poll_frame (s : ServiceState) (o : Oracle) :
    (user_task_poll s o).2.1.shutdown = s.shutdown ∧
    ((user_task_poll s o).2.1.sessionEventReceiver = s.sessionEventReceiver ∨
      termination_check (user_task_poll s o).2.1 = true) := by
  unfold user_task_poll
  dsimp only
  split
  · exact ⟨rfl, Or.inl rfl⟩
  · split
    · exact ⟨rfl, Or.inl rfl⟩
    · split
      · rename_i p2 t2 r2 heq
        exact handle_service_task_frame { s with serviceTaskReceiver := r2 } o t2 p2
      · split
        · exact ⟨rfl, Or.inl rfl⟩
        · exact ⟨rfl, Or.inl rfl⟩

/-- Flushing the pending future task preserves the termination
condition: an already-empty future buffer stays empty. -/
theorem send_pending_task_done (s : ServiceState) (o : Oracle)
    (h : termination_check s = true) :
    termination_check (send_pending_task s o) = true := by
  unfold termination_check at h ⊢
  unfold send_pending_task
  dsimp only
  simp only [Bool.and_eq_true] at h ⊢
  obtain ⟨⟨⟨h1, h2⟩, h3⟩, h4⟩ := h
  refine ⟨⟨⟨h1, h2⟩, h3⟩, ?_⟩
  rw [trySend_empty o.futureChan s.futureTaskSender (List.isEmpty_iff.mp h4)]
  exact h4

/-- The middle of a poll round preserves the global flag, and either
preserves whether the session-event receiver is closed or establishes
the termination condition. -/
theorem poll_middle_frame (s : ServiceState) (o : Oracle) (b : Bool) (s1 : ServiceState)
    (tr : Trace) (hok : poll_middle s o = .ok (b, s1, tr)) :
    s1.shutdown = s.shutdown ∧
    (s1.sessionEventReceiver.closed = s.sessionEventReceiver.closed ∨
      termination_check s1 = true) := by
  unfold poll_middle at hok
  dsimp only at hok
  generalize hS0 : (if s.futureTaskManagerPresent then init_proto_handles { s with futureTaskManagerPresent := false, waitHandle := s.waitHandle ++ [{ hasSender := true, hid := 0 }] } else s) = s0 at hok
  have hA : s0.shutdown = s.shutdown ∧ s0.sessionEventReceiver = s.sessionEventReceiver := by
    rw [← hS0]
    split <;> exact ⟨rfl, rfl⟩
  generalize hR1 : flush_buffer s0 o = r1 at hok
  have hB : Untouched s0 r1.1 := hR1 ▸ flush_buffer_untouched s0 o
  generalize hR2 : try_update_listens r1.1 o = r2 at hok
  have hC : Untouched r1.1 r2.1 := hR2 ▸ try_update_listens_untouched r1.1 o
  split at hok
  · exact absurd hok (by simp)
  · rename_i p1 s3 tr3 hsp
    simp only [Except.ok.injEq, Prod.mk.injEq] at hok
    obtain ⟨-, h2, -⟩ := hok
    rw [← h2]
    have hD := session_poll_frame r2.1 o p1 s3 tr3 hsp
    have hE := user_task_poll_frame s3 o
    refine ⟨hE.1.trans (hD.1.trans (hC.shutdown.trans (hB.shutdown.trans hA.1))), ?_⟩
    cases hE.2 with
    | inl he =>
      refine Or.inl ?_
      have hc := congrArg EventReceiver.closed he
      have hc2 := congrArg EventReceiver.closed hC.receiver
      have hc3 := congrArg EventReceiver.closed hB.receiver
      have hc4 := congrArg EventReceiver.closed hA.2
      exact hc.trans (hD.2.trans (hc2.trans (hc3.trans hc4)))
    | inr hd =>
      exact Or.inr (send_pending_task_done _ o hd)

/-- C4: the termination check.  wait_handle_poll sends the one-shot
cancel to every stored handler task still holding a sender and returns
Ready None exactly when no handle remains; poll_next stores the global
shutdown flag and transitions to wait_handle_poll exactly when the
termination condition (listens empty, state shut down, sessions empty,
future-task queue empty) holds at the head or at the tail of the
round, and otherwise completes the round with the global flag
unchanged. -/
theorem termination_transition (s : ServiceState) (o : Oracle) :
    (∀ e, e ∈ s.waitHandle → e.hasSender = true →
      Effect.cancelSent e.hid ∈ (wait_handle_poll s o).2.2) ∧
    ((wait_handle_poll s o).1 = .readyNone ↔ (wait_handle_poll s o).2.1.waitHandle = []) ∧
    (wait_handle_poll { s with shutdown := true } o).2.1.shutdown = true ∧
    (termination_check s = true →
      poll_next s o = .ok (wait_handle_poll { s with shutdown := true } o)) ∧
    (∀ b s1 tr, termination_check s = false →
      poll_middle s o = .ok (b, s1, tr) → termination_check s1 = true →
      poll_next s o = .ok ((wait_handle_poll { s1 with shutdown := true } o).1,
        (wait_handle_poll { s1 with shutdown := true } o).2.1,
        tr ++ (wait_handle_poll { s1 with shutdown := true } o).2.2)) ∧
    (∀ b s1 tr, termination_check s = false →
      poll_middle s o = .ok (b, s1, tr) → termination_check s1 = false →
      poll_next s o = .ok ((if b then PollR.pending else PollR.readySome), s1, tr) ∧
      s1.shutdown = s.shutdown) := by
  refine ⟨?_, ?_, rfl, ?_, ?_, ?_⟩
  · intro e he hs
    unfold wait_handle_poll
    dsimp only
    exact List.mem_filterMap.mpr ⟨e, he, by rw [if_pos hs]⟩
  · unfold wait_handle_poll
    dsimp only
    split
    · rename_i hk
      constructor
      · intro _
        exact List.isEmpty_iff.mp hk
      · intro _
        rfl
    · rename_i hk
      constructor
      · intro h
        exact absurd h (by simp)
      · intro h
        exact absurd (List.isEmpty_iff.mpr h) hk
  · intro ht
    unfold poll_next
    rw [if_pos ht]
  · intro b s1 tr hf hm ht1
    unfold poll_next
    rw [if_neg (by simp [hf]), hm]
    dsimp only
    rw [if_pos ht1]
  · intro b s1 tr hf hm ht1
    refine ⟨?_, (poll_middle_frame s o b s1 tr hm).1⟩
    unfold poll_next
    rw [if_neg (by simp [hf]), hm]
    dsimp only
    rw [if_neg (by simp [ht1])]

/-- A fresh state with one stored handler task, used by the C4
witness; its termination condition already holds. -/
def c4S : ServiceState := { base with waitHandle := [{ hasSender := true, hid := 5 }] }

/-- Witness for C4: the head check fires on a concrete terminating
state and the stored handler task receives its cancel. -/
theorem termination_transition_witness :
    Effect.cancelSent 5 ∈ (wait_handle_poll c4S oracle0).2.2 ∧
    poll_next c4S oracle0 = .ok (wait_handle_poll { c4S with shutdown := true } oracle0) :=
  ⟨(termination_transition c4S oracle0).1 { hasSender := true, hid := 5 }
      (by simp [c4S]) rfl,
   (termination_transition c4S oracle0).2.2.2.1 rfl⟩

/-! The unreachable branch of session_poll. -/

/-- open_rest can fail only with sessionIdExhausted. -/
theorem open_rest_no_unreachable (s : ServiceState) (pk : Option PublicKey)
    (addr : Multiaddr) (ty : SessionType) (t : TargetProtocol) :
    open_rest s pk addr ty t ≠ .error .unreachableSessionPoll := by
  unfold open_rest
  split
  · simp
  · simp

/-- session_open can fail only with listenAddrExpect or
sessionIdExhausted. -/
theorem session_open_no_unreachable (s : ServiceState) (handle : Nat)
    (pk : Option PublicKey) (addr : Multiaddr) (ty : SessionType)
    (la : Option Multiaddr) :
    session_open s handle pk addr ty la ≠ .error .unreachableSessionPoll := by
  unfold session_open
  cases pk with
  | none => exact open_rest_no_unreachable _ _ _ _ _
  | some key =>
    dsimp only
    cases hfd : findDup key { s with dialProtocols := mapRemove addr s.dialProtocols }.sessions with
    | some fc =>
      dsimp only
      split
      · simp
      · split
        · simp
        · simp
    | none =>
      dsimp only
      cases hx : extract_peer_id addr with
      | some pid =>
        dsimp only
        split
        · simp
        · exact open_rest_no_unreachable _ _ _ _ _
      | none =>
        exact open_rest_no_unreachable _ _ _ _ _

/-- handle_session_event never produces the unreachableSessionPoll
fault. -/
theorem handle_session_event_no_unreachable (s : ServiceState) (o : Oracle)
    (ev : SessionEvent) :
    handle_session_event s o ev ≠ .error .unreachableSessionPoll := by
  cases ev with
  | sessionClose id => simp [handle_session_event]
  | handshakeSuccess handle publicKey address ty listenAddress =>
    simp only [handle_session_event]
    split <;>
    · split
      · simp
      · exact session_open_no_unreachable _ _ _ _ _ _
  | handshakeError ty error address =>
    simp only [handle_session_event]
    split <;> simp
  | protocolMessage id protoId data => simp [handle_session_event]
  | protocolOpen id protoId version => simp [handle_session_event]
  | protocolClose id protoId => simp [handle_session_event]
  | protocolSelectError id protoName =>
    simp only [handle_session_event]
    split <;> simp
  | protocolError id protoId error => simp [handle_session_event]
  | dialError address error => simp [handle_session_event]
  | listenError address error =>
    simp only [handle_session_event]
    split <;> simp
  | sessionTimeout id =>
    simp only [handle_session_event]
    split <;> simp
  | muxerError id error =>
    simp only [handle_session_event]
    split <;> simp
  | listenStart listenAddress incoming => simp [handle_session_event]
  | protocolHandleError error protoId => simp [handle_session_event]

/-- While the session-event receiver is not closed, session_poll never
takes the unreachable branch. -/
theorem session_poll_no_unreachable (s : ServiceState) (o : Oracle)
    (hcl : s.sessionEventReceiver.closed = false) :
    session_poll s o ≠ .error .unreachableSessionPoll := by
  unfold session_poll
  dsimp only
  split
  · simp
  · split
    · simp
    · split
      · split
        · simp
        · rename_i f heq
          intro h
          injection h with h2
          exact handle_session_event_no_unreachable _ o _ (h2 ▸ heq)
      · simp [hcl]

/-- While the session-event receiver is not closed, poll_middle never
produces the unreachableSessionPoll fault. -/
theorem poll_middle_no_unreachable (s : ServiceState) (o : Oracle)
    (hcl : s.sessionEventReceiver.closed = false) :
    poll_middle s o ≠ .error .unreachableSessionPoll := by
  unfold poll_middle
  dsimp only
  generalize hS0 : (if s.futureTaskManagerPresent then init_proto_handles { s with futureTaskManagerPresent := false, waitHandle := s.waitHandle ++ [{ hasSender := true, hid := 0 }] } else s) = s0
  have hcl0 : s0.sessionEventReceiver.closed = false := by
    rw [← hS0]
    split <;> exact hcl
  generalize hR1 : flush_buffer s0 o = r1
  have hcl1 : r1.1.sessionEventReceiver.closed = false := by
    rw [← hR1, (flush_buffer_untouched s0 o).receiver]
    exact hcl0
  generalize hR2 : try_update_listens r1.1 o = r2
  have hcl2 : r2.1.sessionEventReceiver.closed = false := by
    rw [← hR2, (try_update_listens_untouched r1.1 o).receiver]
    exact hcl1
  split
  · rename_i f heq
    intro h
    injection h with h2
    exact session_poll_no_unreachable r2.1 o hcl2 (h2 ▸ heq)
  · simp

/-- Invariant of reachable states: once the session-event receiver is
closed, the termination condition holds. -/
def ClosedImpliesDone (s : ServiceState) : Prop :=
  s.sessionEventReceiver.closed = true → termination_check s = true

/-- Every reachable service state satisfies the invariant: the
session-event receiver is closed only by Shutdown(true), which also
establishes the termination condition. -/
theorem reachable_inv (s : ServiceState) (h : Reachable s) : ClosedImpliesDone s := by
  induction h with
  | init s hI =>
    intro hcl
    rw [hI.receiver] at hcl
    exact absurd hcl (by simp)
  | poll s o p s1 tr hr hp ih =>
    unfold poll_next at hp
    split at hp
    · rename_i hterm
      simp only [Except.ok.injEq] at hp
      have hs1 := congrArg (fun x => x.2.1) hp
      dsimp only at hs1
      intro _
      rw [← hs1, termination_check_wait, termination_check_flag]
      exact hterm
    · rename_i hterm
      have hcl : s.sessionEventReceiver.closed = false := by
        cases hclq : s.sessionEventReceiver.closed with
        | false => rfl
        | true => exact absurd (ih hclq) hterm
      split at hp
      · exact absurd hp (by simp)
      · rename_i bP sM trM hpm
        have hInvM : ClosedImpliesDone sM := by
          obtain ⟨-, h2⟩ := poll_middle_frame s o bP sM trM hpm
          cases h2 with
          | inl he =>
            intro hc
            rw [he, hcl] at hc
            exact absurd hc (by simp)
          | inr hd =>
            intro _
            exact hd
        split at hp
        · rename_i htM
          simp only [Except.ok.injEq, Prod.mk.injEq] at hp
          obtain ⟨-, h2, -⟩ := hp
          intro _
          rw [← h2, termination_check_wait, termination_check_flag]
          exact htM
        · simp only [Except.ok.injEq, Prod.mk.injEq] at hp
          obtain ⟨-, h2, -⟩ := hp
          rw [← h2]
          exact hInvM
  | enqueueEvent s e hr hopen ih =>
    intro hcl
    exact absurd (hopen.symm.trans hcl) Bool.false_ne_true
  | enqueueTask s pq t hr hopen ih =>
    cases pq with
    | high => exact fun hcl => ih hcl
    | normal => exact fun hcl => ih hcl
  | dropControls s hr ih =>
    exact fun hcl => ih hcl

/-- C10: the unreachable branch of session_poll — Ready None from a
session-event receiver whose is_terminated was false — is never taken
in any reachable service state: a poll round never produces the
unreachableSessionPoll fault, including after Shutdown(true) has
closed the session-event receiver, because a state with a closed
receiver already satisfies the termination condition and the head
check diverts the round to wait_handle_poll before the receiver is
polled. -/
theorem session_poll_never_unreachable (s : ServiceState) (hr : Reachable s) (o : Oracle) :
    poll_next s o ≠ .error .unreachableSessionPoll := by
  have hInv := reachable_inv s hr
  unfold poll_next
  split
  · simp
  · rename_i hterm
    have hcl : s.sessionEventReceiver.closed = false := by
      cases hclq : s.sessionEventReceiver.closed with
      | false => rfl
      | true => exact absurd (hInv hclq) hterm
    split
    · rename_i f heq
      intro h
      injection h with h2
      exact poll_middle_no_unreachable s o hcl (h2 ▸ heq)
    · split <;> simp

/-- Witness for C10 at a freshly constructed service state. -/
theorem session_poll_never_unreachable_witness :
    poll_next base oracle0 ≠ .error .unreachableSessionPoll :=
  session_poll_never_unreachable base
    (Reachable.init base ⟨rfl, rfl, rfl, rfl, rfl, rfl, rfl, rfl, rfl, rfl, rfl, rfl, rfl,
      rfl, rfl, rfl, rfl, rfl, rfl, rfl, rfl⟩) oracle0

end Tentacle
